import Mathlib

/-!
# Verification of the RADICAL worker (vote toggling, SVG rendering, meta-tag injection)

Shallow embedding, in Lean 4, of the parts of `src/worker.js` (and its duplicate
`src/unnamed/part_000`) that the specification's testable properties talk about:

* the vote toggle engine `createOrUpdateVote` (votes + petition_details tables),
* the comment-vote toggle `createOrUpdateCommentVote`,
* the proposal listing `getProposals` (both coexisting implementations),
* the share-image renderer `generatePetitionSVG` / `generateSVGTextLines` / `escapeHTML`,
* the meta-tag injector `serveCustomizedHtml` (stripping + injection core).

The relational store is embedded as lists of rows; each SQL statement of the
source is translated into the corresponding list operation (SELECT ... first →
`List.find?` in row order, DELETE WHERE → `List.filter`, UPDATE WHERE →
`List.map`, INSERT → append, with SQLite rowids modelled by a `next...Id`
counter).  JavaScript strings are embedded as `String` / `List Char`;
JS truthiness of a string is `≠ ""`, of a number `≠ 0`, of a nullable object
`Option.isSome`.  `Date.now()` is passed in explicitly as a `now : Nat`
parameter wherever the source reads the clock.
-/

namespace Radical

/-! ## Data model: rows of the five tables the claims touch -/

/-- A row of the `votes` table.  `id` is the SQLite rowid (the handler inserts
without an explicit id and deletes/updates `WHERE id = ?`). -/
structure VoteRow where
  id : Nat
  proposal_id : String
  user_id : String
  vote_type : String
  timestamp : Nat
  is_petition : Bool
  deriving DecidableEq, Repr

/-- A row of the `comment_votes` table.  Its id is an application-generated
string (`'comment_vote_' + Date.now() + '_' + random`). -/
structure CommentVoteRow where
  id : String
  comment_id : String
  user_id : String
  vote_type : String
  timestamp : Nat
  deriving DecidableEq, Repr

/-- A row of the `petition_details` table. -/
structure PetitionRow where
  id : Nat
  user_id : String
  proposal_id : String
  full_name : String
  address : String
  postcode : String
  dob : String
  email : String
  timestamp : Nat
  verified : Bool
  deriving DecidableEq, Repr

/-- A row of the `users` table (only the columns the embedded handlers read). -/
structure UserRow where
  id : String
  name : String
  deriving DecidableEq, Repr

/-- A row of the `proposals` table (only the columns the embedded handlers read). -/
structure ProposalRow where
  id : String
  text : String
  author_id : String
  timestamp : Nat
  trending : Bool
  deriving DecidableEq, Repr

/-- The relational store.  `nextVoteId` / `nextPetitionId` model the SQLite
rowids handed out to `INSERT`s that do not name an id. -/
structure Store where
  users : List UserRow
  proposals : List ProposalRow
  comments : List String
  votes : List VoteRow
  commentVotes : List CommentVoteRow
  petitionDetails : List PetitionRow
  nextVoteId : Nat
  nextPetitionId : Nat
  deriving DecidableEq, Repr

/-! ## Requests and responses of the vote handlers -/

/-- The `petitionDetails` object of a vote request; a missing/empty field is
falsy in the handler's `!fullName || ...` check, so fields are plain strings
with `""` standing for an absent or empty value. -/
structure PetitionDetails where
  fullName : String
  address : String
  postcode : String
  dob : String
  email : String
  deriving DecidableEq, Repr

/-- Body of a `POST` vote request (`{proposalId, userId, voteType, isPetition = false,
petitionDetails = null}`). -/
structure VoteRequest where
  proposalId : String
  userId : String
  voteType : String
  isPetition : Bool
  petitionDetails : Option PetitionDetails
  deriving DecidableEq, Repr

/-- The distinct response shapes `createOrUpdateVote` can produce (each
constructor is one of the handler's `createResponse` sites, with its payload
fields). -/
inductive VoteResp where
  /-- 400 `Missing required fields` -/
  | missingFields
  /-- 400 `Invalid vote type` -/
  | invalidVoteType (voteType : String)
  /-- 404 `User does not exist` -/
  | userNotFound (userId : String)
  /-- 404 `Proposal does not exist` -/
  | proposalNotFound (proposalId : String)
  /-- 200 `{proposalId, userId, voteType: null}` — the toggle-off path -/
  | voteRemoved (proposalId userId : String)
  /-- 400 `Missing required petition details` -/
  | missingPetitionDetails
  /-- 200 `{proposalId, userId, voteType, isPetition, petitionVerified}` -/
  | voteOk (proposalId userId voteType : String) (isPetition petitionVerified : Bool)
  deriving DecidableEq, Repr

/-- Body of a comment-vote request. -/
structure CommentVoteRequest where
  commentId : String
  userId : String
  voteType : String
  deriving DecidableEq, Repr

/-- The distinct response shapes of `createOrUpdateCommentVote`. -/
inductive CommentVoteResp where
  | missingFields
  | invalidVoteType (voteType : String)
  | userNotFound (userId : String)
  | commentNotFound (commentId : String)
  /-- `{commentId, userId, voteType: null, action: 'removed'}` -/
  | removed (commentId userId : String)
  /-- `{commentId, userId, voteType, action: 'updated'}` -/
  | updated (commentId userId voteType : String)
  /-- `{commentId, userId, voteType, action: 'created'}` -/
  | created (commentId userId voteType : String)
  deriving DecidableEq, Repr

/-! ## The vote toggle engine (`createOrUpdateVote`, worker.js:1456-1651;
identical in part_000:1899-2094) -/

/-- The `WHERE proposal_id = ? AND user_id = ?` predicate on vote rows. -/
def pairMatch (pid uid : String) (r : VoteRow) : Bool :=
  r.proposal_id == pid && r.user_id == uid

/-- `SELECT id, vote_type, is_petition FROM votes WHERE proposal_id = ? AND
user_id = ?` followed by `.first()`: the first row of the table matching the
pair, in row order. -/
def findVote (votes : List VoteRow) (pid uid : String) : Option VoteRow :=
  votes.find? (pairMatch pid uid)

/-- `DELETE FROM votes WHERE id = ?`. -/
def deleteVoteById (votes : List VoteRow) (vid : Nat) : List VoteRow :=
  votes.filter (fun r => !(r.id == vid))

/-- `UPDATE votes SET vote_type = ?, timestamp = ?, is_petition = ? WHERE id = ?`. -/
def updateVoteById (votes : List VoteRow) (vid : Nat) (vt : String) (ts : Nat)
    (pet : Bool) : List VoteRow :=
  votes.map (fun r =>
    if r.id == vid then { r with vote_type := vt, timestamp := ts, is_petition := pet } else r)

/-- `INSERT INTO votes (proposal_id, user_id, vote_type, timestamp, is_petition)
VALUES (?, ?, ?, ?, ?)`; the fresh rowid is `nextVoteId`. -/
def insertVote (s : Store) (pid uid vt : String) (ts : Nat) (pet : Bool) : Store :=
  { s with
    votes := s.votes ++ [⟨s.nextVoteId, pid, uid, vt, ts, pet⟩]
    nextVoteId := s.nextVoteId + 1 }

/-- The `WHERE user_id = ? AND proposal_id = ?` predicate on petition rows. -/
def pdMatch (pid uid : String) (r : PetitionRow) : Bool :=
  r.user_id == uid && r.proposal_id == pid

/-- The `// Process petition details if provided` block (worker.js:1566-1626):
validate the five sub-fields, then insert or update the `petition_details` row
keyed on `(user_id, proposal_id)`.  Returns `some` error response when the
validation fails (the early 400 return), `none` when the upsert went through. -/
def processPetitionDetails (s : Store) (pid uid : String) (d : PetitionDetails)
    (ts : Nat) : Store × Option VoteResp :=
  if d.fullName == "" || d.address == "" || d.postcode == "" || d.dob == "" || d.email == "" then
    (s, some .missingPetitionDetails)
  else
    match s.petitionDetails.find? (pdMatch pid uid) with
    | none =>
        ({ s with
            petitionDetails := s.petitionDetails ++
              [⟨s.nextPetitionId, uid, pid, d.fullName, d.address, d.postcode, d.dob, d.email, ts, true⟩]
            nextPetitionId := s.nextPetitionId + 1 }, none)
    | some _ =>
        ({ s with
            petitionDetails := s.petitionDetails.map (fun r =>
              if pdMatch pid uid r then
                { r with full_name := d.fullName, address := d.address, postcode := d.postcode,
                         dob := d.dob, email := d.email, timestamp := ts, verified := true }
              else r) }, none)

/-- The tail of `createOrUpdateVote` after the vote row has been mutated:
`if (voteType === 'upvote' && isPetition && petitionDetails) {...}` and then the
common success response. -/
def afterVoteMutation (s : Store) (pid uid vt : String) (isPet : Bool)
    (details : Option PetitionDetails) (now : Nat) : Store × VoteResp :=
  match vt == "upvote" && isPet, details with
  | true, some d =>
      match processPetitionDetails s pid uid d now with
      | (s2, some err) => (s2, err)
      | (s2, none) => (s2, .voteOk pid uid vt (vt == "upvote" && isPet) (vt == "upvote" && isPet))
  | _, _ => (s, .voteOk pid uid vt (vt == "upvote" && isPet) (vt == "upvote" && isPet))

/-- `createOrUpdateVote` (worker.js:1456-1651): validation, existence checks,
three-way toggle on the existing vote row, then the petition sub-operation. -/
def createOrUpdateVote (s : Store) (req : VoteRequest) (now : Nat) : Store × VoteResp :=
  if req.proposalId == "" || req.userId == "" || req.voteType == "" then
    (s, .missingFields)
  else if req.voteType != "upvote" && req.voteType != "downvote" then
    (s, .invalidVoteType req.voteType)
  else if !(s.users.any (fun u => u.id == req.userId)) then
    (s, .userNotFound req.userId)
  else if !(s.proposals.any (fun p => p.id == req.proposalId)) then
    (s, .proposalNotFound req.proposalId)
  else
    match findVote s.votes req.proposalId req.userId with
    | some ev =>
        if ev.vote_type == req.voteType then
          ({ s with votes := deleteVoteById s.votes ev.id },
           .voteRemoved req.proposalId req.userId)
        else
          let s1 := { s with
            votes := updateVoteById s.votes ev.id req.voteType now
              (req.voteType == "upvote" && req.isPetition) }
          afterVoteMutation s1 req.proposalId req.userId req.voteType req.isPetition
            req.petitionDetails now
    | none =>
        let s1 := insertVote s req.proposalId req.userId req.voteType now
          (req.voteType == "upvote" && req.isPetition)
        afterVoteMutation s1 req.proposalId req.userId req.voteType req.isPetition
          req.petitionDetails now

/-! ## The comment-vote toggle (`createOrUpdateCommentVote`, worker.js:528-669) -/

/-- The `WHERE comment_id = ? AND user_id = ?` predicate on comment-vote rows. -/
def cvMatch (cid uid : String) (r : CommentVoteRow) : Bool :=
  r.comment_id == cid && r.user_id == uid

/-- `createOrUpdateCommentVote`: same toggle, keyed on `(comment_id, user_id)`.
`freshId` stands for the generated `'comment_vote_' + Date.now() + '_' + random`
string. -/
def createOrUpdateCommentVote (s : Store) (req : CommentVoteRequest) (now : Nat)
    (freshId : String) : Store × CommentVoteResp :=
  if req.commentId == "" || req.userId == "" || req.voteType == "" then
    (s, .missingFields)
  else if req.voteType != "upvote" && req.voteType != "downvote" then
    (s, .invalidVoteType req.voteType)
  else if !(s.users.any (fun u => u.id == req.userId)) then
    (s, .userNotFound req.userId)
  else if !(s.comments.any (fun c => c == req.commentId)) then
    (s, .commentNotFound req.commentId)
  else
    match s.commentVotes.find? (cvMatch req.commentId req.userId) with
    | some ev =>
        if ev.vote_type == req.voteType then
          ({ s with commentVotes := s.commentVotes.filter (fun r => !(r.id == ev.id)) },
           .removed req.commentId req.userId)
        else
          ({ s with commentVotes := s.commentVotes.map (fun r =>
              if r.id == ev.id then { r with vote_type := req.voteType, timestamp := now } else r) },
           .updated req.commentId req.userId req.voteType)
    | none =>
        ({ s with commentVotes :=
            s.commentVotes ++ [⟨freshId, req.commentId, req.userId, req.voteType, now⟩] },
         .created req.commentId req.userId req.voteType)

/-! ## Proposal listing (`getProposals`)

Two divergent implementations coexist in the repository: the one in
`src/worker.js:1050-1122` (paginated; `popular` sorts by `upvotes DESC,
p.timestamp DESC`) and the one in `src/unnamed/part_000:1415-1475`
(unpaginated; `popular` sorts by `(upvotes - downvotes) DESC`).  Both are
embedded.  SQL `ORDER BY` is modelled by an insertion sort with the
corresponding boolean comparator. -/

/-- One result row of the proposals query: the proposal columns joined with the
author plus the aggregate subqueries. -/
structure ProposalAgg where
  id : String
  text : String
  timestamp : Nat
  trending : Bool
  author_name : String
  author_id : String
  upvotes : Nat
  downvotes : Nat
  deriving DecidableEq, Repr

/-- `(SELECT COUNT(*) FROM votes WHERE proposal_id = p.id AND vote_type = 'upvote')`. -/
def upvotesOf (votes : List VoteRow) (pid : String) : Nat :=
  votes.countP (fun r => r.proposal_id == pid && r.vote_type == "upvote")

/-- `(SELECT COUNT(*) FROM votes WHERE proposal_id = p.id AND vote_type = 'downvote')`. -/
def downvotesOf (votes : List VoteRow) (pid : String) : Nat :=
  votes.countP (fun r => r.proposal_id == pid && r.vote_type == "downvote")

/-- `FROM proposals p JOIN users u ON p.author_id = u.id` with the aggregate
columns: proposals whose author is missing are dropped by the inner join. -/
def proposalAggRows (s : Store) : List ProposalAgg :=
  s.proposals.filterMap (fun p =>
    (s.users.find? (fun u => u.id == p.author_id)).map (fun u =>
      ⟨p.id, p.text, p.timestamp, p.trending, u.name, u.id,
        upvotesOf s.votes p.id, downvotesOf s.votes p.id⟩))

/-- Insert into a list ordered by the boolean comparator `le`. -/
def insertB {α : Type} (le : α → α → Bool) (x : α) : List α → List α
  | [] => [x]
  | y :: ys => if le x y then x :: y :: ys else y :: insertB le x ys

/-- Insertion sort by the boolean comparator `le` (the model of SQL `ORDER BY`). -/
def sortB {α : Type} (le : α → α → Bool) : List α → List α
  | [] => []
  | x :: xs => insertB le x (sortB le xs)

/-- `ORDER BY p.timestamp DESC`. -/
def newestLe (a b : ProposalAgg) : Bool := b.timestamp ≤ a.timestamp

/-- worker.js `popular`: `ORDER BY upvotes DESC, p.timestamp DESC`. -/
def popularLeWorker (a b : ProposalAgg) : Bool :=
  b.upvotes < a.upvotes || (a.upvotes == b.upvotes && b.timestamp ≤ a.timestamp)

/-- The net vote count `upvotes - downvotes` of a result row, as an integer. -/
def netVotesOf (a : ProposalAgg) : Int := (a.upvotes : Int) - (a.downvotes : Int)

/-- part_000 `popular`: `ORDER BY (upvotes - downvotes) DESC`. -/
def popularLeAlt (a b : ProposalAgg) : Bool := netVotesOf b ≤ netVotesOf a

/-- worker.js `controversial`: `ORDER BY (upvotes + downvotes) DESC,
ABS(upvotes - downvotes) ASC, p.timestamp DESC`. -/
def controversialLeWorker (a b : ProposalAgg) : Bool :=
  b.upvotes + b.downvotes < a.upvotes + a.downvotes ||
    (a.upvotes + a.downvotes == b.upvotes + b.downvotes &&
      ((netVotesOf a).natAbs < (netVotesOf b).natAbs ||
        ((netVotesOf a).natAbs == (netVotesOf b).natAbs && b.timestamp ≤ a.timestamp)))

/-- The comparator worker.js's `getProposals` selects for each `sortBy` value
(`newest`, `oldest`, `popular`, `controversial`, defaulting to `newest`). -/
def workerOrder (sortBy : String) : ProposalAgg → ProposalAgg → Bool :=
  if sortBy == "newest" then newestLe
  else if sortBy == "oldest" then fun a b => a.timestamp ≤ b.timestamp
  else if sortBy == "popular" then popularLeWorker
  else if sortBy == "controversial" then controversialLeWorker
  else newestLe

/-- worker.js `getProposals` (worker.js:1050-1122): sort, then `LIMIT ? OFFSET ?`
with `page` defaulting to 1, `limit` defaulting to 20 and capped at 100.  `page`
and `limit` arrive as the already-parsed query integers (`0` standing for an
absent/unparsable parameter, which `parseInt(x) || d` replaces by the default). -/
def getProposalsWorker (s : Store) (sortBy : String) (page limit : Nat) : List ProposalAgg :=
  let pageEff := if page == 0 then 1 else page
  let limitEff := min (if limit == 0 then 20 else limit) 100
  let offset := (pageEff - 1) * limitEff
  ((sortB (workerOrder sortBy) (proposalAggRows s)).drop offset).take limitEff

/-- part_000 `getProposals` (part_000:1415-1475): unpaginated; `newest`,
`popular`, `controversial`, `petitions` (anything else is left in table order,
which the embedding keeps as the join order). -/
def getProposalsAlt (s : Store) (sortBy : String) : List ProposalAgg :=
  let rows := proposalAggRows s
  if sortBy == "newest" then sortB newestLe rows
  else if sortBy == "popular" then sortB popularLeAlt rows
  else if sortBy == "controversial" then
    sortB (fun a b => b.upvotes + b.downvotes ≤ a.upvotes + a.downvotes) rows
  else if sortBy == "petitions" then
    sortB (fun a b =>
      (s.votes.countP (fun r => r.proposal_id == b.id && r.vote_type == "upvote" && r.is_petition)) ≤
      (s.votes.countP (fun r => r.proposal_id == a.id && r.vote_type == "upvote" && r.is_petition))) rows
  else rows

/-! ## `escapeHTML` (worker.js:2150-2157)

Each `text.replace(/c/g, rep)` with a single-character pattern is the
character-wise replacement `replaceAllC`; the implementation chains the five
replacements in source order (`&`, `<`, `>`, `"`, `'`). -/

/-- `text.replace(/c/g, rep)` for a single-character pattern `c`. -/
def replaceAllC (c : Char) (rep : List Char) : List Char → List Char
  | [] => []
  | x :: xs => (if x = c then rep else [x]) ++ replaceAllC c rep xs

/-- `escapeHTML` on the underlying character list. -/
def escapeHTMLList (l : List Char) : List Char :=
  replaceAllC '\x27' ("&#039;".data)
    (replaceAllC '\x22' ("&quot;".data)
      (replaceAllC '>' ("&gt;".data)
        (replaceAllC '<' ("&lt;".data)
          (replaceAllC '&' ("&amp;".data) l))))

/-- `escapeHTML` (worker.js:2150-2157). -/
def escapeHTML (s : String) : String := String.mk (escapeHTMLList s.data)

/-- The per-character entity map the five chained replacements implement
(stated from the spec sentence "replaced by their entity equivalents"; the
refinement theorem compares `escapeHTMLList` against it). -/
def escChar (c : Char) : List Char :=
  if c = '&' then "&amp;".data
  else if c = '<' then "&lt;".data
  else if c = '>' then "&gt;".data
  else if c = '\x22' then "&quot;".data
  else if c = '\x27' then "&#039;".data
  else [c]

/-! ## `generateSVGTextLines` (worker.js:2102-2143): word wrap -/

/-- `Math.floor(width / avgCharWidth)` with `avgCharWidth = 22`. -/
def charsPerLine (width : Nat) : Nat := width / 22

/-- `text.split(' ')` (JS semantics: `"".split(' ')` is `[""]`, consecutive
separators yield empty fragments). -/
def splitSp : List Char → List (List Char)
  | [] => [[]]
  | c :: cs =>
    if c = ' ' then [] :: splitSp cs
    else
      match splitSp cs with
      | [] => [[c]]
      | w :: ws => (c :: w) :: ws

/-- The `for (const word of words)` accumulation loop: `cur` is `currentLine`
(`[]` when falsy), the result is `lines` including the final
`if (currentLine) lines.push(currentLine)`. -/
def wrapLoop (k : Nat) (cur : List Char) : List (List Char) → List (List Char)
  | [] => if cur.isEmpty then [] else [cur]
  | w :: ws =>
    let t := if cur.isEmpty then w else cur ++ ' ' :: w
    if t.length ≤ k then wrapLoop k t ws else cur :: wrapLoop k w ws

/-- The full word-wrapped line list before the 6-line limit. -/
def wrapAll (k : Nat) (text : List Char) : List (List Char) :=
  wrapLoop k [] (splitSp text)

/-- `line.slice(0, -3)` (drops the last three characters, clamped at the start
exactly as the negative JS index is). -/
def dropLast3 (l : List Char) : List Char := l.take (l.length - 3)

/-- `lines.slice(0, 6)` plus the ellipsis rewrite of index 5 when content was
truncated. -/
def limitLines (lines : List (List Char)) : List (List Char) :=
  if 6 < lines.length then
    lines.take 5 ++ [dropLast3 (lines.getD 5 []) ++ ("...".data)]
  else lines

/-- The line list `generateSVGTextLines` renders for the given text and width. -/
def svgLines (text : List Char) (width : Nat) : List (List Char) :=
  limitLines (wrapAll (charsPerLine width) text)

/-- Concatenation of words, each preceded by one space (device relating the
wrap loop's accumulated line to the remaining words). -/
def joinTail : List (List Char) → List Char
  | [] => []
  | w :: ws => ' ' :: (w ++ joinTail ws)

/-- Join of a word list with single-space separators; `joinSp (splitSp cs) = cs`. -/
def joinSp : List (List Char) → List Char
  | [] => []
  | w :: ws => w ++ joinTail ws

/-- The `limitedLines.forEach` loop: one `<text>` element per line, `lineY`
stepping by `lineHeight = 46`. -/
def svgTextLineElems (x y : Nat) : List (List Char) → String
  | [] => ""
  | l :: rest =>
    "<text x=\"" ++ toString x ++ "\" y=\"" ++ toString y ++
      "\" font-family=\"\x27Roboto Mono\x27, monospace\" font-size=\"36\" fill=\"#ffffff\">" ++
      escapeHTML (String.mk l) ++ "</text>\n" ++ svgTextLineElems x (y + 46) rest

/-- `generateSVGTextLines` (worker.js:2102-2143). -/
def generateSVGTextLines (text : String) (x y width : Nat) : String :=
  svgTextLineElems x y (svgLines text.data width)

/-! ## `toLocaleDateString('en-US', {year:'numeric', month:'short', day:'numeric'})`

The Workers runtime formats in UTC; epoch milliseconds are converted to a
Gregorian civil date with the standard days-to-civil algorithm and printed as
`MMM d, yyyy`. -/

/-- Short en-US month names, 1-indexed. -/
def monthShort (m : Nat) : String :=
  if m = 1 then "Jan" else if m = 2 then "Feb" else if m = 3 then "Mar"
  else if m = 4 then "Apr" else if m = 5 then "May" else if m = 6 then "Jun"
  else if m = 7 then "Jul" else if m = 8 then "Aug" else if m = 9 then "Sep"
  else if m = 10 then "Oct" else if m = 11 then "Nov" else "Dec"

/-- Gregorian civil date `(year, month, day)` from days since 1970-01-01. -/
def civilFromDays (days : Nat) : Nat × Nat × Nat :=
  let z := days + 719468
  let era := z / 146097
  let doe := z % 146097
  let yoe := (doe - doe / 1460 + doe / 36524 - doe / 146097) / 365
  let y := yoe + era * 400
  let doy := doe - (365 * yoe + yoe / 4 - yoe / 100)
  let mp := (5 * doy + 2) / 153
  let d := doy - (153 * mp + 2) / 5 + 1
  let m := if mp < 10 then mp + 3 else mp - 9
  (if m ≤ 2 then y + 1 else y, m, d)

/-- `new Date(ms).toLocaleDateString('en-US', {year:'numeric', month:'short',
day:'numeric'})` in UTC, e.g. `"Mar 31, 2024"`. -/
def formatDateEnUS (ms : Nat) : String :=
  let ymd := civilFromDays (ms / 86400000)
  monthShort ymd.2.1 ++ " " ++ toString ymd.2.2 ++ ", " ++ toString ymd.1

/-! ## `generatePetitionSVG` (worker.js:2015-2092) -/

/-- The fields of the proposal object the renderer reads.  A JS-falsy field
(absent, `""`, `0`) is embedded as `""` / `0`, matching the `||` fallbacks. -/
structure ProposalInput where
  id : String
  text : String
  timestamp : Nat
  upvotes : Nat
  downvotes : Nat
  deriving DecidableEq, Repr

/-- `proposalId.slice(-6)` (last six characters, clamped). -/
def sliceLast6 (s : String) : String := String.mk (s.data.drop (s.data.length - 6))

/-- Template text from `<svg` up to the petition-text interpolation point. -/
def svgTplA : String :=
  "<svg xmlns=\"http://www.w3.org/2000/svg\" viewBox=\"0 0 1200 630\" width=\"1200\" height=\"630\">\n" ++
  "  <!-- Background -->\n" ++
  "  <rect width=\"1200\" height=\"630\" fill=\"#000000\" />\n" ++
  "  \n" ++
  "  <!-- Border frame with glowing effect -->\n" ++
  "  <rect x=\"10\" y=\"10\" width=\"1180\" height=\"610\" fill=\"none\" stroke=\"#ff0099\" stroke-width=\"4\" rx=\"0\" />\n" ++
  "  <rect x=\"20\" y=\"20\" width=\"1160\" height=\"590\" fill=\"rgba(0, 0, 0, 0.8)\" stroke=\"#ff0099\" stroke-width=\"1\" rx=\"0\" \n" ++
  "        style=\"filter: drop-shadow(0 0 10px #ff0099)\" />\n" ++
  "  \n" ++
  "  <!-- RADICAL Header -->\n" ++
  "  <text x=\"600\" y=\"90\" font-family=\"\x27Roboto Mono\x27, monospace\" font-size=\"72\" font-weight=\"700\" text-anchor=\"middle\" \n" ++
  "        fill=\"#ff0099\" style=\"text-transform: uppercase;\">RADICAL</text>\n" ++
  "  \n" ++
  "  <!-- Tagline -->\n" ++
  "  <rect x=\"450\" y=\"110\" width=\"300\" height=\"36\" fill=\"#ff0099\" />\n" ++
  "  <text x=\"600\" y=\"135\" font-family=\"\x27Roboto Mono\x27, monospace\" font-size=\"20\" font-weight=\"600\" text-anchor=\"middle\" \n" ++
  "        fill=\"#000000\" style=\"text-transform: uppercase;\">VIBE, VOTE, VETO</text>\n" ++
  "  \n" ++
  "  <!-- Petition text container -->\n" ++
  "  <rect x=\"100\" y=\"180\" width=\"1000\" height=\"280\" fill=\"rgba(17, 17, 17, 0.7)\" stroke=\"#333333\" stroke-width=\"1\" />\n" ++
  "  \n" ++
  "  <!-- Petition text (dynamically generated) -->\n" ++
  "  "

/-- Template text between the petition lines and the upvote count. -/
def svgTplB : String :=
  "\n" ++
  "  \n" ++
  "  <!-- Vote statistics -->\n" ++
  "  <g transform=\"translate(200, 510)\">\n" ++
  "    <!-- Upvotes -->\n" ++
  "    <text x=\"0\" y=\"0\" font-family=\"\x27Roboto Mono\x27, monospace\" font-size=\"24\" fill=\"#ff0099\"></text>\n" ++
  "    <text x=\"30\" y=\"0\" font-family=\"\x27Roboto Mono\x27, monospace\" font-size=\"24\" fill=\"#ffffff\">"

/-- Template text between the upvote and downvote counts. -/
def svgTplC : String :=
  "</text>\n" ++
  "    \n" ++
  "    <!-- Downvotes -->\n" ++
  "    <text x=\"120\" y=\"0\" font-family=\"\x27Roboto Mono\x27, monospace\" font-size=\"24\" fill=\"#ff0099\"></text>\n" ++
  "    <text x=\"150\" y=\"0\" font-family=\"\x27Roboto Mono\x27, monospace\" font-size=\"24\" fill=\"#ffffff\">"

/-- Template text between the downvote count and the net-vote color. -/
def svgTplD : String :=
  "</text>\n" ++
  "    \n" ++
  "    <!-- Net votes -->\n" ++
  "    <text x=\"240\" y=\"0\" font-family=\"\x27Roboto Mono\x27, monospace\" font-size=\"24\" fill=\"#ff0099\">NET:</text>\n" ++
  "    <text x=\"300\" y=\"0\" font-family=\"\x27Roboto Mono\x27, monospace\" font-size=\"24\" fill=\""

/-- Template text between the net-vote display and the proposal id. -/
def svgTplE : String :=
  "</text>\n" ++
  "  </g>\n" ++
  "  \n" ++
  "  <!-- Timestamp and ID -->\n" ++
  "  <text x=\"600\" y=\"560\" font-family=\"\x27Roboto Mono\x27, monospace\" font-size=\"18\" fill=\"#aaaaaa\" text-anchor=\"middle\">\n" ++
  "    Petition ID: "

/-- Template text between the formatted timestamp and the sliced id. -/
def svgTplF : String :=
  "\n" ++
  "  </text>\n" ++
  "  \n" ++
  "  <!-- Radical Logo / Brand (right corner) -->\n" ++
  "  <g transform=\"translate(940, 460)\">\n" ++
  "    <!-- Pink square for the logo -->\n" ++
  "    <rect x=\"0\" y=\"0\" width=\"120\" height=\"120\" fill=\"#111111\" stroke=\"#ff0099\" stroke-width=\"2\" />\n" ++
  "    <text x=\"60\" y=\"50\" font-family=\"\x27Roboto Mono\x27, monospace\" font-size=\"16\" fill=\"#ffffff\" text-anchor=\"middle\">RADICAL</text>\n" ++
  "    <text x=\"60\" y=\"75\" font-family=\"\x27Roboto Mono\x27, monospace\" font-size=\"14\" fill=\"#ff0099\" text-anchor=\"middle\">PETITION</text>\n" ++
  "    <text x=\"60\" y=\"100\" font-family=\"\x27Roboto Mono\x27, monospace\" font-size=\"12\" fill=\"#aaaaaa\" text-anchor=\"middle\">#"

/-- Template text from after the sliced id to `</svg>`. -/
def svgTplG : String :=
  "</text>\n" ++
  "  </g>\n" ++
  "  \n" ++
  "  <!-- URL -->\n" ++
  "  <text x=\"600\" y=\"600\" font-family=\"\x27Roboto Mono\x27, monospace\" font-size=\"20\" fill=\"#ff0099\" text-anchor=\"middle\" \n" ++
  "        style=\"text-transform: uppercase;\">theradicalparty.com</text>\n" ++
  "</svg>"

/-- `generatePetitionSVG` (worker.js:2015-2092).  `now` is the ambient
`Date.now()` the source falls back to when `proposal.timestamp` is falsy. -/
def generatePetitionSVG (p : ProposalInput) (now : Nat) : String :=
  let petitionText := if p.text == "" then "Unknown petition" else p.text
  let netVotes : Int := (p.upvotes : Int) - (p.downvotes : Int)
  let netVotesDisplay := if 0 < netVotes then "+" ++ toString netVotes else toString netVotes
  let netVotesColor :=
    if 0 < netVotes then "#11cc77" else if netVotes < 0 then "#ff0099" else "#ffffff"
  let proposalId := if p.id == "" then "unknown" else p.id
  let timestamp := formatDateEnUS (if p.timestamp == 0 then now else p.timestamp)
  svgTplA ++ generateSVGTextLines petitionText 120 220 960 ++
    svgTplB ++ toString p.upvotes ++
    svgTplC ++ toString p.downvotes ++
    svgTplD ++ netVotesColor ++ "\">" ++ netVotesDisplay ++
    svgTplE ++ proposalId ++ "  Created: " ++ timestamp ++
    svgTplF ++ sliceLast6 proposalId ++
    svgTplG

/-! ## `serveCustomizedHtml` (worker.js:2166-2275): tag stripping and injection

The three `String.replace(regex, '')` calls use the patterns
`/<meta\s+property=["']og:image(:[^"']*)?["'][^>]*>/g`,
`/<meta\s+name=["']twitter:image(:[^"']*)?["'][^>]*>/g` and
`/<meta\s+name=["']twitter:image:src["'][^>]*>/g`.  On these patterns the
JS backtracking engine is deterministic (each greedy class run is maximal and
the next literal either follows or the match fails), so each pattern is
embedded as a direct matcher returning the rest of the input after a match
at the head.  Global replacement scans left to right, resuming after each
match.  `\s` is modelled on its ASCII part (the documents at issue are ASCII). -/

/-- One of the whitespace characters of `\s` (ASCII part). -/
def isWsChar (c : Char) : Bool :=
  c = ' ' || c = '\t' || c = '\n' || c = '\r' || c = '\x0b' || c = '\x0c'

/-- `["']`: a single- or double-quote character. -/
def isQuoteChar (c : Char) : Bool := c = '\x22' || c = '\x27'

/-- Expect the literal `lit` at the head, returning the rest. -/
def expectLit : List Char → List Char → Option (List Char)
  | [], l => some l
  | _ :: _, [] => none
  | p :: ps, c :: cs => if c = p then expectLit ps cs else none

/-- Expect `\s+`: at least one whitespace character, consumed maximally. -/
def expectWs1 : List Char → Option (List Char)
  | c :: cs => if isWsChar c then some (cs.dropWhile isWsChar) else none
  | [] => none

/-- Expect a quote character. -/
def expectQuote : List Char → Option (List Char)
  | c :: cs => if isQuoteChar c then some cs else none
  | [] => none

/-- The optional `(:[^"']*)?` group: when the next character is `:`, consume it
together with the maximal run of non-quote characters. -/
def skipColonGroup (l : List Char) : List Char :=
  match l with
  | ':' :: rest => rest.dropWhile (fun c => !(isQuoteChar c))
  | _ => l

/-- Expect `[^>]*>`: the maximal run of non-`>` characters followed by `>`. -/
def expectAttrTailGt (l : List Char) : Option (List Char) :=
  match l.dropWhile (fun c => !(c = '>')) with
  | '>' :: rest => some rest
  | _ => none

/-- Matcher for `<meta\s+ATTR=["']NAME(:[^"']*)?["'][^>]*>` at the head of `l`
(`optColon` selects whether the optional colon group is present in the
pattern); returns the input after the match. -/
def matchMetaTag (attrEq nameLit : List Char) (optColon : Bool) (l : List Char) :
    Option (List Char) :=
  (expectLit ("<meta".data) l).bind fun l1 =>
  (expectWs1 l1).bind fun l2 =>
  (expectLit attrEq l2).bind fun l3 =>
  (expectQuote l3).bind fun l4 =>
  (expectLit nameLit l4).bind fun l5 =>
  (expectQuote (if optColon then skipColonGroup l5 else l5)).bind fun l6 =>
  expectAttrTailGt l6

/-- `html.replace(pat, '')` for a global regex `pat`: scan left to right,
dropping each match and resuming after it.  Recursion is driven by a fuel
counter so that the function reduces definitionally; one unit of fuel per
input character always suffices because every step consumes at least one
character (the `fuel = 0` arm is never reached from `stripPat`). -/
def stripPatFuel (pat : List Char → Option (List Char)) : Nat → List Char → List Char
  | _, [] => []
  | 0, l => l
  | fuel + 1, c :: cs =>
    match pat (c :: cs) with
    | some rest =>
        if rest.length < cs.length + 1 then stripPatFuel pat fuel rest
        else c :: stripPatFuel pat fuel cs
    | none => c :: stripPatFuel pat fuel cs

/-- `html.replace(pat, '')`, entry point. -/
def stripPat (pat : List Char → Option (List Char)) (l : List Char) : List Char :=
  stripPatFuel pat l.length l

/-- The three strip calls of `serveCustomizedHtml` (worker.js:2217-2219), in
source order. -/
def stripImageTags (html : List Char) : List Char :=
  stripPat (matchMetaTag ("name=".data) ("twitter:image:src".data) false)
    (stripPat (matchMetaTag ("name=".data) ("twitter:image".data) true)
      (stripPat (matchMetaTag ("property=".data) ("og:image".data) true) html))

/-- `haystack.indexOf(needle)`: first index at which `needle` occurs, `none`
standing for the JS `-1`. -/
def indexOfStr (l pat : List Char) : Option Nat :=
  match l with
  | [] => if pat.isEmpty then some 0 else none
  | _ :: cs =>
      if pat.isPrefixOf l then some 0 else (indexOfStr cs pat).map (· + 1)

/-- The pure stripping/injection core of `serveCustomizedHtml`
(worker.js:2216-2257): strip image meta tags, search the result for `</head>`,
return it unchanged when the marker is absent, otherwise splice `metaTags` in
right before the marker.  `metaTags` stands for the `customMetaTags` block
(whose contents, built from the proposal and `Date.now()`, the claims at issue
do not depend on). -/
def serveCustomizedHtmlCore (html metaTags : List Char) : List Char :=
  let m := stripImageTags html
  match indexOfStr m ("</head>".data) with
  | none => m
  | some i => m.take i ++ metaTags ++ m.drop i

/-! ## Store well-formedness (spec §3): per-pair uniqueness invariants -/

/-- The `(proposal, user)` key of a vote row. -/
def voteKey (r : VoteRow) : String × String := (r.proposal_id, r.user_id)

/-- The `(comment, user)` key of a comment-vote row. -/
def cvKey (r : CommentVoteRow) : String × String := (r.comment_id, r.user_id)

/-- The `(user, proposal)` key of a petition-details row. -/
def pdKey (r : PetitionRow) : String × String := (r.user_id, r.proposal_id)

/-- At most one `votes` row per `(proposal, user)` pair. -/
def PairwiseDistinctVotes (l : List VoteRow) : Prop :=
  l.Pairwise (fun a b => voteKey a ≠ voteKey b)

/-- At most one `comment_votes` row per `(comment, user)` pair. -/
def PairwiseDistinctCV (l : List CommentVoteRow) : Prop :=
  l.Pairwise (fun a b => cvKey a ≠ cvKey b)

/-- At most one `petition_details` row per `(proposal, user)` pair. -/
def PairwiseDistinctPD (l : List PetitionRow) : Prop :=
  l.Pairwise (fun a b => pdKey a ≠ pdKey b)

/-- The spec's §3 invariant over the whole store. -/
def StoreInv (s : Store) : Prop :=
  PairwiseDistinctVotes s.votes ∧ PairwiseDistinctCV s.commentVotes ∧
    PairwiseDistinctPD s.petitionDetails

/-- JS `haystack.includes(needle)` / `indexOf(...) !== -1`. -/
def strContainsL (l pat : List Char) : Bool := (indexOfStr l pat).isSome

/-! ## Concrete stores and inputs used by witnesses and counterexamples -/

/-- A store holding one user, one proposal and a single existing upvote by that
user on that proposal (it satisfies the per-pair uniqueness invariant). -/
def storeOneUpvote : Store :=
  { users := [⟨"u1", "User One"⟩]
    proposals := [⟨"p1", "some proposal", "u1", 0, false⟩]
    comments := ["c1"]
    votes := [⟨0, "p1", "u1", "upvote", 0, false⟩]
    commentVotes := []
    petitionDetails := []
    nextVoteId := 1
    nextPetitionId := 0 }

/-- A store holding one user, one proposal, one comment and no votes. -/
def storeFresh : Store :=
  { users := [⟨"u1", "User One"⟩]
    proposals := [⟨"p1", "some proposal", "u1", 0, false⟩]
    comments := ["c1"]
    votes := []
    commentVotes := []
    petitionDetails := []
    nextVoteId := 0
    nextPetitionId := 0 }

/-- Two proposals by the same author: `p1` has 1 upvote and 5 downvotes
(net −4), `p2` has no votes (net 0). -/
def storeTwoProposals : Store :=
  { users := [⟨"u1", "User One"⟩]
    proposals := [⟨"p1", "a", "u1", 0, false⟩, ⟨"p2", "b", "u1", 0, false⟩]
    comments := []
    votes :=
      [⟨0, "p1", "u1", "upvote", 0, false⟩,
       ⟨1, "p1", "u2", "downvote", 0, false⟩,
       ⟨2, "p1", "u3", "downvote", 0, false⟩,
       ⟨3, "p1", "u4", "downvote", 0, false⟩,
       ⟨4, "p1", "u5", "downvote", 0, false⟩,
       ⟨5, "p1", "u6", "downvote", 0, false⟩]
    commentVotes := []
    petitionDetails := []
    nextVoteId := 6
    nextPetitionId := 0 }

/-- A complete petition-details payload (all five sub-fields present). -/
def fullDetails : PetitionDetails :=
  ⟨"Jo Citizen", "1 Example St", "2000", "1990-01-01", "jo@example.com"⟩

/-- A petition-details payload with the email missing. -/
def detailsNoEmail : PetitionDetails :=
  ⟨"Jo Citizen", "1 Example St", "2000", "1990-01-01", ""⟩

/-- 30 ten-character words: wraps to far more than 6 lines at width 960. -/
def longText : String :=
  "aaaaaaaaaa bbbbbbbbbb cccccccccc dddddddddd eeeeeeeeee ffffffffff " ++
  "gggggggggg hhhhhhhhhh iiiiiiiiii jjjjjjjjjj kkkkkkkkkk llllllllll " ++
  "mmmmmmmmmm nnnnnnnnnn oooooooooo pppppppppp qqqqqqqqqq rrrrrrrrrr " ++
  "ssssssssss tttttttttt uuuuuuuuuu vvvvvvvvvv wwwwwwwwww xxxxxxxxxx " ++
  "yyyyyyyyyy zzzzzzzzzz aaaaaaaaaa bbbbbbbbbb cccccccccc dddddddddd"

/-- A proposal input whose id carries raw markup-unsafe characters. -/
def proposalUnsafeId : ProposalInput := ⟨"x<y&z", "hello there", 5, 2, 1⟩

/-- A proposal input with a falsy (absent) timestamp. -/
def proposalNoTimestamp : ProposalInput := ⟨"p1", "hello there", 0, 1, 0⟩

/-- An HTML fragment with no `</head>` marker in which stripping the
`og:image` meta tag creates one by juxtaposition. -/
def htmlSplitHead : List Char :=
  ("</he<meta property=\x22og:image\x22>ad>").data

/-! ## General list helpers -/

theorem find?_append_none {α : Type} (p : α → Bool) (l₁ l₂ : List α)
    (h : l₁.find? p = none) : (l₁ ++ l₂).find? p = l₂.find? p := by
  induction l₁ with
  | nil => simp
  | cons a t ih =>
      cases hpa : p a with
      | true => simp [List.find?, hpa] at h
      | false =>
          simp only [List.find?, hpa] at h
          simpa [List.find?, hpa] using ih h

theorem find?_map_pred {α : Type} (f : α → α) (p : α → Bool)
    (hf : ∀ a, p (f a) = p a) (l : List α) :
    (l.map f).find? p = (l.find? p).map f := by
  induction l with
  | nil => simp
  | cons a t ih =>
      cases hpa : p a with
      | true => simp [List.find?, hpa, hf]
      | false => simpa [List.find?, hpa, hf] using ih

theorem filter_map_pred {α : Type} (f : α → α) (p : α → Bool)
    (hf : ∀ a, p (f a) = p a) (l : List α) :
    (l.map f).filter p = (l.filter p).map f := by
  induction l with
  | nil => simp
  | cons a t ih =>
      cases hpa : p a with
      | true => simpa [List.filter, hpa, hf] using ih
      | false => simpa [List.filter, hpa, hf] using ih

theorem filter_eq_single_of_key {α β : Type} (key : α → β) (pm : α → Bool)
    (hpm : ∀ a b, pm a = true → pm b = true → key a = key b)
    (l : List α) (h : l.Pairwise (fun a b => key a ≠ key b))
    (r : α) (hr : r ∈ l) (hm : pm r = true) :
    l.filter pm = [r] := by
  induction l with
  | nil => cases hr
  | cons a t ih =>
      obtain ⟨ha, ht⟩ := List.pairwise_cons.mp h
      rcases List.mem_cons.mp hr with rfl | hrt
      · have htnil : t.filter pm = [] := by
          refine List.filter_eq_nil_iff.mpr (fun b hb hpb => ?_)
          exact ha b hb (hpm r b hm hpb)
        simp [List.filter, hm, htnil]
      · have hpa : pm a = false := by
          cases hpa : pm a with
          | false => rfl
          | true => exact absurd (hpm a r hpa hm) (ha r hrt)
        simp [List.filter, hpa, ih ht hrt]

theorem pairwise_key_map {α β : Type} (key : α → β) (f : α → α)
    (hf : ∀ a, key (f a) = key a) (l : List α)
    (h : l.Pairwise (fun a b => key a ≠ key b)) :
    (l.map f).Pairwise (fun a b => key a ≠ key b) := by
  rw [List.pairwise_map]
  refine h.imp ?_
  intro a b hab
  simpa [hf] using hab

theorem pairwise_key_append_one {α β : Type} (key : α → β) (l : List α) (x : α)
    (h : l.Pairwise (fun a b => key a ≠ key b)) (hx : ∀ a ∈ l, key a ≠ key x) :
    (l ++ [x]).Pairwise (fun a b => key a ≠ key b) := by
  rw [List.pairwise_append]
  refine ⟨h, List.pairwise_singleton _ _, fun a ha b hb => ?_⟩
  simp only [List.mem_singleton] at hb
  subst hb
  exact hx a ha

/-! ## Frame lemmas for the vote toggle engine -/

theorem processPetitionDetails_frame (s : Store) (pid uid : String)
    (d : PetitionDetails) (ts : Nat) :
    (processPetitionDetails s pid uid d ts).1.votes = s.votes ∧
    (processPetitionDetails s pid uid d ts).1.users = s.users ∧
    (processPetitionDetails s pid uid d ts).1.proposals = s.proposals ∧
    (processPetitionDetails s pid uid d ts).1.commentVotes = s.commentVotes := by
  unfold processPetitionDetails
  split
  · simp
  · split <;> simp

theorem afterVoteMutation_frame (s : Store) (pid uid vt : String) (isPet : Bool)
    (det : Option PetitionDetails) (now : Nat) :
    (afterVoteMutation s pid uid vt isPet det now).1.votes = s.votes ∧
    (afterVoteMutation s pid uid vt isPet det now).1.users = s.users ∧
    (afterVoteMutation s pid uid vt isPet det now).1.proposals = s.proposals ∧
    (afterVoteMutation s pid uid vt isPet det now).1.commentVotes = s.commentVotes := by
  unfold afterVoteMutation
  cases hb : (vt == "upvote" && isPet) with
  | false => cases det <;> simp
  | true =>
      cases det with
      | none => simp
      | some d =>
          have hfr := processPetitionDetails_frame s pid uid d now
          rcases hpd : processPetitionDetails s pid uid d now with ⟨s2, o⟩
          rw [hpd] at hfr
          cases o <;> simpa [hpd] using hfr

/-- The tail of the handler with `isPetition = false` is a pure response. -/
theorem afterVoteMutation_noPet (s : Store) (pid uid vt : String)
    (det : Option PetitionDetails) (now : Nat) :
    afterVoteMutation s pid uid vt false det now =
      (s, VoteResp.voteOk pid uid vt false false) := by
  simp [afterVoteMutation]

/-! ## C9: determinism of the share-image renderer -/

/-- Unfolding of `generatePetitionSVG` into its template chunks (definitional). -/
theorem generatePetitionSVG_eq (p : ProposalInput) (now : Nat) :
    generatePetitionSVG p now =
      svgTplA ++
        generateSVGTextLines (if p.text == "" then "Unknown petition" else p.text) 120 220 960 ++
        svgTplB ++ toString p.upvotes ++ svgTplC ++ toString p.downvotes ++ svgTplD ++
        (if 0 < (p.upvotes : Int) - (p.downvotes : Int) then "#11cc77"
          else if (p.upvotes : Int) - (p.downvotes : Int) < 0 then "#ff0099" else "#ffffff") ++
        "\">" ++
        (if 0 < (p.upvotes : Int) - (p.downvotes : Int) then
            "+" ++ toString ((p.upvotes : Int) - (p.downvotes : Int))
          else toString ((p.upvotes : Int) - (p.downvotes : Int))) ++
        svgTplE ++ (if p.id == "" then "unknown" else p.id) ++ "  Created: " ++
        formatDateEnUS (if p.timestamp == 0 then now else p.timestamp) ++
        svgTplF ++ sliceLast6 (if p.id == "" then "unknown" else p.id) ++ svgTplG :=
  rfl

/-- C9 (amended): `generatePetitionSVG` is deterministic for every proposal
input whose `timestamp` field is present (truthy): the output does not depend
on the ambient clock.  (When the timestamp is falsy the source substitutes
`Date.now()`, which is the correction the counterexample forces.) -/
theorem generatePetitionSVG_deterministic (p : ProposalInput) (h : p.timestamp ≠ 0)
    (now1 now2 : Nat) : generatePetitionSVG p now1 = generatePetitionSVG p now2 := by
  simp [generatePetitionSVG, h]

/-- Witness for C9: a concrete input with a present timestamp renders
identically under two different clocks. -/
theorem generatePetitionSVG_deterministic_witness :
    (ProposalInput.timestamp ⟨"p1", "hello there", 5, 2, 1⟩ ≠ 0) ∧
      generatePetitionSVG ⟨"p1", "hello there", 5, 2, 1⟩ 0 =
        generatePetitionSVG ⟨"p1", "hello there", 5, 2, 1⟩ 12345 :=
  ⟨by decide, generatePetitionSVG_deterministic ⟨"p1", "hello there", 5, 2, 1⟩ (by decide) 0 12345⟩

/-- Counterexample to C9 as stated: for a proposal input with a falsy
timestamp, the renderer reads the current time, and two runs a day apart
produce different bytes (the `Created:` date differs). -/
theorem generatePetitionSVG_depends_on_now :
    generatePetitionSVG proposalNoTimestamp 0 ≠
      generatePetitionSVG proposalNoTimestamp 86400000 := by
  intro h
  rw [generatePetitionSVG_eq, generatePetitionSVG_eq] at h
  have e1 : formatDateEnUS
      (if proposalNoTimestamp.timestamp == 0 then 0 else proposalNoTimestamp.timestamp) =
      "Jan 1, 1970" := by decide
  have e2 : formatDateEnUS
      (if proposalNoTimestamp.timestamp == 0 then 86400000 else proposalNoTimestamp.timestamp) =
      "Jan 2, 1970" := by decide
  rw [e1, e2] at h
  have h' := congrArg String.data h
  simp only [String.data_append, List.append_assoc] at h'
  replace h' := List.append_cancel_left h'
  replace h' := List.append_cancel_left h'
  replace h' := List.append_cancel_left h'
  replace h' := List.append_cancel_left h'
  replace h' := List.append_cancel_left h'
  replace h' := List.append_cancel_left h'
  replace h' := List.append_cancel_left h'
  replace h' := List.append_cancel_left h'
  replace h' := List.append_cancel_left h'
  replace h' := List.append_cancel_left h'
  replace h' := List.append_cancel_left h'
  replace h' := List.append_cancel_left h'
  replace h' := List.append_cancel_left h'
  exact absurd (List.append_cancel_right h') (by decide)

/-! ## C8: missing `</head>` fallback of the meta-tag injector -/

/-- C8 (amended): when the *stripped* document contains no `</head>` marker,
`serveCustomizedHtml` returns the stripped-but-uninjected document instead of
failing. -/
theorem serveCustomizedHtml_no_head_fallback (html metaTags : List Char)
    (h : indexOfStr (stripImageTags html) ("</head>".data) = none) :
    serveCustomizedHtmlCore html metaTags = stripImageTags html := by
  simp [serveCustomizedHtmlCore, h]

/-- Witness for C8 on a concrete head-less document. -/
theorem serveCustomizedHtml_no_head_fallback_witness :
    indexOfStr (stripImageTags ("<p>hi</p>".data)) ("</head>".data) = none ∧
      serveCustomizedHtmlCore ("<p>hi</p>".data) ("TAGS".data) =
        stripImageTags ("<p>hi</p>".data) :=
  ⟨by decide, serveCustomizedHtml_no_head_fallback _ _ (by decide)⟩

/-- Counterexample to C8 as stated (quantifying over documents with no
`</head>` in the *input*): stripping an `og:image` tag can create a `</head>`
marker by juxtaposition, after which the injector does splice tags in, so the
returned document is not the stripped-but-uninjected one. -/
theorem serveCustomizedHtml_injects_despite_no_head_marker :
    indexOfStr htmlSplitHead ("</head>".data) = none ∧
      serveCustomizedHtmlCore htmlSplitHead ("X".data) ≠ stripImageTags htmlSplitHead :=
  ⟨by decide, by decide⟩

/-! ## C10: toggle-off ignores petition details -/

/-- C10 (confirmed): when the existing vote for the pair has the requested
`voteType`, the handler deletes the vote row and answers `voteType: null`
immediately; `petition_details` is untouched even though `isPetition` is true
and a (complete or not) `petitionDetails` payload was supplied. -/
theorem toggle_off_ignores_petition_details (s : Store) (p u v : String)
    (d : PetitionDetails) (now : Nat) (ev : VoteRow)
    (hp : p ≠ "") (hu : u ≠ "")
    (hv : v = "upvote" ∨ v = "downvote")
    (huser : s.users.any (fun x => x.id == u) = true)
    (hprop : s.proposals.any (fun x => x.id == p) = true)
    (hfind : findVote s.votes p u = some ev)
    (hsame : ev.vote_type = v) :
    (createOrUpdateVote s ⟨p, u, v, true, some d⟩ now).1.petitionDetails = s.petitionDetails ∧
    (createOrUpdateVote s ⟨p, u, v, true, some d⟩ now).1.votes = deleteVoteById s.votes ev.id ∧
    (createOrUpdateVote s ⟨p, u, v, true, some d⟩ now).2 = VoteResp.voteRemoved p u := by
  rcases hv with rfl | rfl <;>
    simp [createOrUpdateVote, hp, hu, huser, hprop, hfind, hsame]

/-- Witness for C10: toggling off the concrete stored upvote with a complete
petition payload leaves `petition_details` unchanged. -/
theorem toggle_off_ignores_petition_details_witness :
    (createOrUpdateVote storeOneUpvote ⟨"p1", "u1", "upvote", true, some fullDetails⟩ 7).1.petitionDetails =
        storeOneUpvote.petitionDetails ∧
    (createOrUpdateVote storeOneUpvote ⟨"p1", "u1", "upvote", true, some fullDetails⟩ 7).1.votes =
        deleteVoteById storeOneUpvote.votes 0 ∧
    (createOrUpdateVote storeOneUpvote ⟨"p1", "u1", "upvote", true, some fullDetails⟩ 7).2 =
        VoteResp.voteRemoved "p1" "u1" :=
  toggle_off_ignores_petition_details storeOneUpvote "p1" "u1" "upvote" fullDetails 7
    ⟨0, "p1", "u1", "upvote", 0, false⟩ (by decide) (by decide) (Or.inl rfl)
    (by decide) (by decide) (by decide) (by decide)

/-! ## C4: vote committed despite petition-details 400 -/

/-- C4 (confirmed): an upvote with `isPetition` on a payload missing one of
the five required sub-fields answers 400 `Missing required petition details`,
yet the vote row has already been inserted/updated and is not rolled back,
while `petition_details` is left unchanged. -/
theorem vote_committed_despite_petition_400 (s : Store) (p u : String)
    (d : PetitionDetails) (now : Nat)
    (hp : p ≠ "") (hu : u ≠ "")
    (huser : s.users.any (fun x => x.id == u) = true)
    (hprop : s.proposals.any (fun x => x.id == p) = true)
    (hnoup : ∀ r ∈ s.votes, pairMatch p u r = true → r.vote_type ≠ "upvote")
    (hmiss : d.fullName = "" ∨ d.address = "" ∨ d.postcode = "" ∨ d.dob = "" ∨ d.email = "") :
    (createOrUpdateVote s ⟨p, u, "upvote", true, some d⟩ now).2 = VoteResp.missingPetitionDetails ∧
    (∃ r ∈ (createOrUpdateVote s ⟨p, u, "upvote", true, some d⟩ now).1.votes,
        pairMatch p u r = true ∧ r.vote_type = "upvote") ∧
    (createOrUpdateVote s ⟨p, u, "upvote", true, some d⟩ now).1.petitionDetails = s.petitionDetails := by
  have hval : (d.fullName == "" || d.address == "" || d.postcode == "" ||
      d.dob == "" || d.email == "") = true := by
    rcases hmiss with h | h | h | h | h <;> simp [h]
  have hafter : ∀ s', afterVoteMutation s' p u "upvote" true (some d) now =
      (s', VoteResp.missingPetitionDetails) := by
    intro s'
    simp [afterVoteMutation, processPetitionDetails, hval]
  cases hfv : findVote s.votes p u with
  | none =>
      have hstep : createOrUpdateVote s ⟨p, u, "upvote", true, some d⟩ now =
          (insertVote s p u "upvote" now true, VoteResp.missingPetitionDetails) := by
        simp [createOrUpdateVote, hp, hu, huser, hprop, hfv, hafter]
      rw [hstep]
      refine ⟨rfl, ⟨⟨s.nextVoteId, p, u, "upvote", now, true⟩, ?_, by simp [pairMatch], rfl⟩, rfl⟩
      exact List.mem_append_right _ (List.mem_singleton.mpr rfl)
  | some ev =>
      have hmem : ev ∈ s.votes := List.mem_of_find?_eq_some (by simpa [findVote] using hfv)
      have hpm : pairMatch p u ev = true := List.find?_some (p := pairMatch p u) (by simpa [findVote] using hfv)
      have hne : (ev.vote_type == "upvote") = false := by
        simpa using hnoup ev hmem hpm
      have hstep : createOrUpdateVote s ⟨p, u, "upvote", true, some d⟩ now =
          ({ s with votes := updateVoteById s.votes ev.id "upvote" now true },
            VoteResp.missingPetitionDetails) := by
        simp [createOrUpdateVote, hp, hu, huser, hprop, hfv, hne, hafter]
      rw [hstep]
      refine ⟨rfl, ⟨{ ev with vote_type := "upvote", timestamp := now, is_petition := true },
        ?_, ?_, rfl⟩, rfl⟩
      · exact List.mem_map.mpr ⟨ev, hmem, by simp⟩
      · simpa [pairMatch] using hpm

/-- Witness for C4: on the fresh store, an upvote with `isPetition` and a
payload missing the email yields the 400 yet commits the vote row. -/
theorem vote_committed_despite_petition_400_witness :
    (createOrUpdateVote storeFresh ⟨"p1", "u1", "upvote", true, some detailsNoEmail⟩ 7).2 =
        VoteResp.missingPetitionDetails ∧
    (∃ r ∈ (createOrUpdateVote storeFresh ⟨"p1", "u1", "upvote", true, some detailsNoEmail⟩ 7).1.votes,
        pairMatch "p1" "u1" r = true ∧ r.vote_type = "upvote") ∧
    (createOrUpdateVote storeFresh ⟨"p1", "u1", "upvote", true, some detailsNoEmail⟩ 7).1.petitionDetails =
        storeFresh.petitionDetails :=
  vote_committed_despite_petition_400 storeFresh "p1" "u1" detailsNoEmail 7
    (by decide) (by decide) (by decide) (by decide) (by decide) (by decide)

/-! ## C6: escaping in the share-image renderer -/

theorem replaceAllC_append (c : Char) (rep l₁ l₂ : List Char) :
    replaceAllC c rep (l₁ ++ l₂) = replaceAllC c rep l₁ ++ replaceAllC c rep l₂ := by
  induction l₁ with
  | nil => rfl
  | cons a t ih => simp [replaceAllC, ih]

theorem escapeHTMLList_cons (c : Char) (l : List Char) :
    escapeHTMLList (c :: l) = escChar c ++ escapeHTMLList l := by
  have h : escapeHTMLList (c :: l) = escapeHTMLList [c] ++ escapeHTMLList l := by
    have hc : (c :: l) = [c] ++ l := rfl
    rw [hc]
    simp only [escapeHTMLList, replaceAllC_append]
  rw [h]
  congr 1
  by_cases h1 : c = '&'
  · subst h1; decide
  by_cases h2 : c = '<'
  · subst h2; decide
  by_cases h3 : c = '>'
  · subst h3; decide
  by_cases h4 : c = '\x22'
  · subst h4; decide
  by_cases h5 : c = '\x27'
  · subst h5; decide
  simp [escapeHTMLList, replaceAllC, escChar, h1, h2, h3, h4, h5]

theorem escapeHTMLList_eq_flatMap (l : List Char) :
    escapeHTMLList l = l.flatMap escChar := by
  induction l with
  | nil => rfl
  | cons c t ih => simp [escapeHTMLList_cons, ih]

theorem escChar_safe (c : Char) :
    (escChar c).all (fun x => !(x == '<' || x == '>' || x == '\x22' || x == '\x27')) = true := by
  by_cases h1 : c = '&'
  · subst h1; decide
  by_cases h2 : c = '<'
  · subst h2; decide
  by_cases h3 : c = '>'
  · subst h3; decide
  by_cases h4 : c = '\x22'
  · subst h4; decide
  by_cases h5 : c = '\x27'
  · subst h5; decide
  simp [escChar, h1, h2, h3, h4, h5]

/-- C6 (amended): `escapeHTML` replaces the five markup-unsafe characters by
their entity equivalents character-wise (the five chained global replacements
equal the per-character entity map, with no double-escaping), and its output
contains no raw `<`, `>`, `"` or `'`; the petition-text lines of the renderer
pass through it.  (The proposal id, by contrast, is interpolated raw — the
counterexample.) -/
theorem escapeHTML_charwise_and_safe (s : List Char) :
    escapeHTMLList s = s.flatMap escChar ∧
    (escapeHTMLList s).all (fun c => !(c == '<' || c == '>' || c == '\x22' || c == '\x27')) = true := by
  refine ⟨escapeHTMLList_eq_flatMap s, ?_⟩
  rw [escapeHTMLList_eq_flatMap]
  induction s with
  | nil => rfl
  | cons c t ih => rw [List.flatMap_cons, List.all_append, escChar_safe c, ih]; rfl

/-- Counterexample to C6 as stated: the proposal id is interpolated into the
SVG without escaping.  For the input id `x<y&z` (which contains raw `<` and
`&`), the renderer's output ends with the raw id followed by the closing
template chunk — the unsafe characters from the input remain raw in the
markup. -/
theorem generatePetitionSVG_id_not_escaped :
    ('<' ∈ proposalUnsafeId.id.data ∧ '&' ∈ proposalUnsafeId.id.data) ∧
    ∃ pre : List Char, (generatePetitionSVG proposalUnsafeId 0).data =
      pre ++ (proposalUnsafeId.id.data ++ svgTplG.data) := by
  refine ⟨⟨by decide, by decide⟩, ?_⟩
  have h := generatePetitionSVG_eq proposalUnsafeId 0
  have hslice : sliceLast6 (if proposalUnsafeId.id == "" then "unknown" else proposalUnsafeId.id) =
      proposalUnsafeId.id := by decide
  refine ⟨(svgTplA ++
      generateSVGTextLines (if proposalUnsafeId.text == "" then "Unknown petition"
        else proposalUnsafeId.text) 120 220 960 ++
      svgTplB ++ toString proposalUnsafeId.upvotes ++ svgTplC ++
      toString proposalUnsafeId.downvotes ++ svgTplD ++
      (if 0 < (proposalUnsafeId.upvotes : Int) - (proposalUnsafeId.downvotes : Int) then "#11cc77"
        else if (proposalUnsafeId.upvotes : Int) - (proposalUnsafeId.downvotes : Int) < 0 then
          "#ff0099" else "#ffffff") ++
      "\">" ++
      (if 0 < (proposalUnsafeId.upvotes : Int) - (proposalUnsafeId.downvotes : Int) then
          "+" ++ toString ((proposalUnsafeId.upvotes : Int) - (proposalUnsafeId.downvotes : Int))
        else toString ((proposalUnsafeId.upvotes : Int) - (proposalUnsafeId.downvotes : Int))) ++
      svgTplE ++ (if proposalUnsafeId.id == "" then "unknown" else proposalUnsafeId.id) ++
      "  Created: " ++
      formatDateEnUS (if proposalUnsafeId.timestamp == 0 then 0 else proposalUnsafeId.timestamp) ++
      svgTplF).data, ?_⟩
  rw [h]
  simp only [hslice, String.data_append, List.append_assoc]

/-! ## C3: the per-pair uniqueness invariant is preserved -/

theorem pairwiseDistinctVotes_delete (l : List VoteRow) (vid : Nat)
    (h : PairwiseDistinctVotes l) : PairwiseDistinctVotes (deleteVoteById l vid) :=
  List.Pairwise.sublist (List.filter_sublist _) h

theorem pairwiseDistinctVotes_update (l : List VoteRow) (vid : Nat) (vt : String)
    (ts : Nat) (pet : Bool) (h : PairwiseDistinctVotes l) :
    PairwiseDistinctVotes (updateVoteById l vid vt ts pet) := by
  refine pairwise_key_map voteKey _ ?_ l h
  intro a
  by_cases hid : (a.id == vid) = true <;> simp [updateVoteById, voteKey, hid]

theorem pairwiseDistinctVotes_insert (s : Store) (pid uid vt : String) (ts : Nat)
    (pet : Bool) (h : PairwiseDistinctVotes s.votes)
    (hnone : findVote s.votes pid uid = none) :
    PairwiseDistinctVotes (insertVote s pid uid vt ts pet).votes := by
  refine pairwise_key_append_one voteKey _ _ h ?_
  intro a ha hkey
  have hnm := List.find?_eq_none.mp (by simpa [findVote] using hnone) a ha
  apply hnm
  simp only [voteKey, Prod.mk.injEq] at hkey
  simp [pairMatch, hkey.1, hkey.2]

theorem pairwiseDistinctPD_process (s : Store) (pid uid : String)
    (d : PetitionDetails) (ts : Nat) (h : PairwiseDistinctPD s.petitionDetails) :
    PairwiseDistinctPD (processPetitionDetails s pid uid d ts).1.petitionDetails := by
  unfold processPetitionDetails
  split
  · exact h
  · cases hfd : s.petitionDetails.find? (pdMatch pid uid) with
    | none =>
        refine pairwise_key_append_one pdKey _ _ h ?_
        intro a ha hkey
        have hnm := List.find?_eq_none.mp hfd a ha
        apply hnm
        simp only [pdKey, Prod.mk.injEq] at hkey
        simp [pdMatch, hkey.1, hkey.2]
    | some _ =>
        refine pairwise_key_map pdKey _ ?_ _ h
        intro a
        by_cases hm : pdMatch pid uid a = true <;> simp [pdKey, hm]

theorem storeInv_processPetitionDetails (s : Store) (pid uid : String)
    (d : PetitionDetails) (ts : Nat) (h : StoreInv s) :
    StoreInv (processPetitionDetails s pid uid d ts).1 := by
  have hfr := processPetitionDetails_frame s pid uid d ts
  exact ⟨hfr.1 ▸ h.1, hfr.2.2.2 ▸ h.2.1, pairwiseDistinctPD_process s pid uid d ts h.2.2⟩

theorem storeInv_afterVoteMutation (s : Store) (pid uid vt : String) (isPet : Bool)
    (det : Option PetitionDetails) (now : Nat) (h : StoreInv s) :
    StoreInv (afterVoteMutation s pid uid vt isPet det now).1 := by
  unfold afterVoteMutation
  cases hb : (vt == "upvote" && isPet) with
  | false => cases det <;> exact h
  | true =>
      cases det with
      | none => exact h
      | some d =>
          have hpd := storeInv_processPetitionDetails s pid uid d now h
          rcases hproc : processPetitionDetails s pid uid d now with ⟨s2, o⟩
          rw [hproc] at hpd
          cases o <;> (simp only [hproc]; exact hpd)

theorem storeInv_createOrUpdateVote (s : Store) (req : VoteRequest) (now : Nat)
    (h : StoreInv s) : StoreInv (createOrUpdateVote s req now).1 := by
  unfold createOrUpdateVote
  split
  · exact h
  · split
    · exact h
    · split
      · exact h
      · split
        · exact h
        · cases hfv : findVote s.votes req.proposalId req.userId with
          | some ev =>
              simp only []
              split
              · exact ⟨pairwiseDistinctVotes_delete _ _ h.1, h.2.1, h.2.2⟩
              · exact storeInv_afterVoteMutation _ _ _ _ _ _ _
                  ⟨pairwiseDistinctVotes_update _ _ _ _ _ h.1, h.2.1, h.2.2⟩
          | none =>
              exact storeInv_afterVoteMutation _ _ _ _ _ _ _
                ⟨pairwiseDistinctVotes_insert s _ _ _ _ _ h.1 hfv, h.2.1, h.2.2⟩

theorem pairwiseDistinctCV_insert (s : Store) (cid uid vt freshId : String) (now : Nat)
    (h : PairwiseDistinctCV s.commentVotes)
    (hnone : s.commentVotes.find? (cvMatch cid uid) = none) :
    PairwiseDistinctCV (s.commentVotes ++ [⟨freshId, cid, uid, vt, now⟩]) := by
  refine pairwise_key_append_one cvKey _ _ h ?_
  intro a ha hkey
  have hnm := List.find?_eq_none.mp hnone a ha
  apply hnm
  simp only [cvKey, Prod.mk.injEq] at hkey
  simp [cvMatch, hkey.1, hkey.2]

theorem storeInv_createOrUpdateCommentVote (s : Store) (req : CommentVoteRequest)
    (now : Nat) (freshId : String) (h : StoreInv s) :
    StoreInv (createOrUpdateCommentVote s req now freshId).1 := by
  unfold createOrUpdateCommentVote
  split
  · exact h
  · split
    · exact h
    · split
      · exact h
      · split
        · exact h
        · cases hfv : s.commentVotes.find? (cvMatch req.commentId req.userId) with
          | some ev =>
              simp only []
              split
              · exact ⟨h.1, List.Pairwise.sublist (List.filter_sublist _) h.2.1, h.2.2⟩
              · refine ⟨h.1, ?_, h.2.2⟩
                refine pairwise_key_map cvKey _ ?_ _ h.2.1
                intro a
                by_cases hid : (a.id == ev.id) = true <;> simp [cvKey, hid]
          | none => exact ⟨h.1, pairwiseDistinctCV_insert s _ _ _ _ _ h.2.1 hfv, h.2.2⟩

/-- C3 (confirmed): starting from a store satisfying the §3 invariant (at most
one `votes` row per `(proposal, user)`, one `comment_votes` row per
`(comment, user)`, one `petition_details` row per `(proposal, user)`), each of
`createOrUpdateVote`, `createOrUpdateCommentVote` and the petition-detail
upsert preserves the invariant; hence any sequential execution does. -/
theorem store_ops_preserve_uniqueness (s : Store) (vreq : VoteRequest)
    (creq : CommentVoteRequest) (pid uid : String) (d : PetitionDetails)
    (now : Nat) (freshId : String) (h : StoreInv s) :
    StoreInv (createOrUpdateVote s vreq now).1 ∧
    StoreInv (createOrUpdateCommentVote s creq now freshId).1 ∧
    StoreInv (processPetitionDetails s pid uid d now).1 :=
  ⟨storeInv_createOrUpdateVote s vreq now h,
   storeInv_createOrUpdateCommentVote s creq now freshId h,
   storeInv_processPetitionDetails s pid uid d now h⟩

/-- Witness for C3 at the concrete one-upvote store. -/
theorem store_ops_preserve_uniqueness_witness :
    StoreInv storeOneUpvote ∧
    StoreInv (createOrUpdateVote storeOneUpvote ⟨"p1", "u1", "upvote", true, some fullDetails⟩ 9).1 ∧
    StoreInv (createOrUpdateCommentVote storeOneUpvote ⟨"c1", "u1", "upvote"⟩ 9 "cv_9_x").1 ∧
    StoreInv (processPetitionDetails storeOneUpvote "p1" "u1" fullDetails 9).1 := by
  have hinv : StoreInv storeOneUpvote :=
    ⟨List.pairwise_singleton _ _, List.Pairwise.nil, List.Pairwise.nil⟩
  exact ⟨hinv, store_ops_preserve_uniqueness storeOneUpvote
    ⟨"p1", "u1", "upvote", true, some fullDetails⟩ ⟨"c1", "u1", "upvote"⟩ "p1" "u1"
    fullDetails 9 "cv_9_x" hinv⟩

/-! ## C7: line counts of the word wrapper -/

theorem splitSp_ne_nil (cs : List Char) : splitSp cs ≠ [] := by
  cases cs with
  | nil => simp [splitSp]
  | cons c cs =>
      simp only [splitSp]
      split
      · simp
      · split <;> simp

theorem joinSp_splitSp (cs : List Char) : joinSp (splitSp cs) = cs := by
  induction cs with
  | nil => rfl
  | cons c cs ih =>
      by_cases hc : c = ' '
      · subst hc
        simp only [splitSp, if_pos rfl]
        cases hsp : splitSp cs with
        | nil => exact absurd hsp (splitSp_ne_nil cs)
        | cons w ws =>
            rw [hsp] at ih
            calc joinSp ([] :: w :: ws) = ' ' :: joinSp (w :: ws) := rfl
            _ = ' ' :: cs := by rw [ih]
      · simp only [splitSp, if_neg hc]
        cases hsp : splitSp cs with
        | nil => exact absurd hsp (splitSp_ne_nil cs)
        | cons w ws =>
            rw [hsp] at ih
            calc joinSp ((c :: w) :: ws) = c :: joinSp (w :: ws) := rfl
            _ = c :: cs := by rw [ih]

theorem joinSp_length_le (ws : List (List Char)) :
    (joinSp ws).length ≤ (joinTail ws).length := by
  cases ws with
  | nil => simp [joinSp, joinTail]
  | cons w ws => simp [joinSp, joinTail]

theorem exists_nonempty_word (cs : List Char) (h : ∃ c ∈ cs, c ≠ ' ') :
    ∃ w ∈ splitSp cs, w ≠ [] := by
  induction cs with
  | nil => rcases h with ⟨c, hc, _⟩; cases hc
  | cons c cs ih =>
      by_cases hc : c = ' '
      · subst hc
        rcases h with ⟨c', hmem, hne⟩
        rcases List.mem_cons.mp hmem with rfl | hmem'
        · exact absurd rfl hne
        · obtain ⟨w, hw, hwne⟩ := ih ⟨c', hmem', hne⟩
          refine ⟨w, ?_, hwne⟩
          simp only [splitSp, if_pos rfl]
          exact List.mem_cons_of_mem _ hw
      · cases hsp : splitSp cs with
        | nil => exact absurd hsp (splitSp_ne_nil cs)
        | cons w ws =>
            refine ⟨c :: w, ?_, by simp⟩
            simp only [splitSp, if_neg hc, hsp]
            exact List.mem_cons_self _ _

theorem wrapLoop_single (k : Nat) (ws : List (List Char)) :
    ∀ cur : List Char, cur ≠ [] → cur.length + (joinTail ws).length ≤ k →
      wrapLoop k cur ws = [cur ++ joinTail ws] := by
  induction ws with
  | nil =>
      intro cur hne _
      have hcurne : cur.isEmpty = false := by simpa using hne
      simp [wrapLoop, hcurne, joinTail]
  | cons w ws ih =>
      intro cur hne hlen
      have hcurne : cur.isEmpty = false := by simpa using hne
      have hlen2 : (cur ++ ' ' :: w).length + (joinTail ws).length ≤ k := by
        simp only [joinTail, List.length_append, List.length_cons] at hlen ⊢
        omega
      have hle : (cur ++ ' ' :: w).length ≤ k := le_trans (Nat.le_add_right _ _) hlen2
      simp only [wrapLoop, hcurne, Bool.false_eq_true, if_false, if_pos hle]
      rw [ih (cur ++ ' ' :: w) (by simp) hlen2]
      simp [joinTail, List.append_assoc]

theorem wrapLoop_nil_one (k : Nat) (ws : List (List Char))
    (hlen : (joinSp ws).length ≤ k) (hw : ∃ w ∈ ws, w ≠ []) :
    ∃ l, wrapLoop k [] ws = [l] := by
  induction ws with
  | nil => rcases hw with ⟨w, hw0, _⟩; cases hw0
  | cons w ws ih =>
      cases w with
      | nil =>
          have hrec : wrapLoop k [] ([] :: ws) = wrapLoop k [] ws := by
            simp [wrapLoop]
          rw [hrec]
          apply ih
          · exact le_trans (joinSp_length_le ws) hlen
          · rcases hw with ⟨w', hmem, hne⟩
            rcases List.mem_cons.mp hmem with rfl | hmem'
            · exact absurd rfl hne
            · exact ⟨w', hmem', hne⟩
      | cons c cw =>
          have hlen' : cw.length + 1 + (joinTail ws).length ≤ k := by
            simp only [joinSp, List.length_append, List.length_cons] at hlen
            omega
          have hle : cw.length + 1 ≤ k := by omega
          have hstep : wrapLoop k [] ((c :: cw) :: ws) = wrapLoop k (c :: cw) ws := by
            simp [wrapLoop, hle]
          rw [hstep, wrapLoop_single k ws (c :: cw) (by simp) hlen']
          exact ⟨_, rfl⟩

/-- C7 (amended): for text containing at least one non-space character whose
length fits the per-line budget `⌊width / 22⌋`, `generateSVGTextLines` renders
exactly one line (whitespace-only text renders zero lines — the
counterexample); and whenever the wrapped text exceeds 6 lines, exactly 6
lines are rendered and the 6th ends in `"..."`. -/
theorem svgLines_one_and_six (text : List Char) (width : Nat) :
    ((∃ c ∈ text, c ≠ ' ') → text.length ≤ charsPerLine width →
      (svgLines text width).length = 1) ∧
    (6 < (wrapAll (charsPerLine width) text).length →
      (svgLines text width).length = 6 ∧
      ∃ lst, (svgLines text width).getLast? = some lst ∧ "...".data <:+ lst) := by
  constructor
  · intro hc hlen
    have hw : ∃ w ∈ splitSp text, w ≠ [] := exists_nonempty_word text hc
    have hl : (joinSp (splitSp text)).length ≤ charsPerLine width := by
      rw [joinSp_splitSp]; exact hlen
    obtain ⟨l, hl1⟩ := wrapLoop_nil_one (charsPerLine width) (splitSp text) hl hw
    simp [svgLines, wrapAll, hl1, limitLines]
  · intro h6
    simp only [svgLines, limitLines, if_pos h6]
    constructor
    · rw [List.length_append, List.length_take]
      simp only [List.length_cons, List.length_nil]
      omega
    · refine ⟨dropLast3 ((wrapAll (charsPerLine width) text).getD 5 []) ++ "...".data,
        ?_, List.suffix_append _ _⟩
      exact List.getLast?_concat _

set_option maxRecDepth 2000 in
/-- Witness for C7 on concrete texts: a short sentence renders one line, the
long 30-word text renders 6 lines ending in an ellipsis. -/
theorem svgLines_one_and_six_witness :
    ((∃ c ∈ "hello world".data, c ≠ ' ') ∧ "hello world".data.length ≤ charsPerLine 960 ∧
      (svgLines "hello world".data 960).length = 1) ∧
    (6 < (wrapAll (charsPerLine 960) longText.data).length ∧
      (svgLines longText.data 960).length = 6 ∧
      ∃ lst, (svgLines longText.data 960).getLast? = some lst ∧ "...".data <:+ lst) :=
  ⟨⟨⟨'h', by decide, by decide⟩, by decide,
      (svgLines_one_and_six "hello world".data 960).1 ⟨'h', by decide, by decide⟩ (by decide)⟩,
    by decide, (svgLines_one_and_six longText.data 960).2 (by decide)⟩

/-- Counterexample to C7 as stated: the single-space text has length 1, well
within the per-line budget, yet `generateSVGTextLines` renders zero lines
rather than one (`if (currentLine)` skips the final empty push). -/
theorem svgLines_whitespace_no_line :
    " ".data.length ≤ charsPerLine 960 ∧ (svgLines " ".data 960).length ≠ 1 :=
  ⟨by decide, by decide⟩

/-! ## Branch equations for `createOrUpdateVote` (used by C1 and C2) -/

theorem pairMatch_key (p u : String) (a b : VoteRow)
    (ha : pairMatch p u a = true) (hb : pairMatch p u b = true) :
    voteKey a = voteKey b := by
  simp only [pairMatch, Bool.and_eq_true, beq_iff_eq] at ha hb
  simp [voteKey, ha.1, ha.2, hb.1, hb.2]

theorem mem_pair_eq (l : List VoteRow) (p u : String) (hpw : PairwiseDistinctVotes l)
    (r ev : VoteRow) (hev : ev ∈ l) (hevm : pairMatch p u ev = true)
    (hr : r ∈ l) (hrm : pairMatch p u r = true) : r = ev := by
  have hfil := filter_eq_single_of_key voteKey (pairMatch p u) (pairMatch_key p u)
    l hpw ev hev hevm
  have hmem : r ∈ l.filter (pairMatch p u) := List.mem_filter.mpr ⟨hr, hrm⟩
  rw [hfil] at hmem
  simpa using hmem

/-- Toggle-off branch: same-type existing vote ⇒ delete and `voteType: null`. -/
theorem createOrUpdateVote_toggle_eq (s : Store) (req : VoteRequest) (now : Nat)
    (ev : VoteRow) (hp : req.proposalId ≠ "") (hu : req.userId ≠ "")
    (hv : req.voteType = "upvote" ∨ req.voteType = "downvote")
    (huser : s.users.any (fun x => x.id == req.userId) = true)
    (hprop : s.proposals.any (fun x => x.id == req.proposalId) = true)
    (hfv : findVote s.votes req.proposalId req.userId = some ev)
    (hsame : ev.vote_type = req.voteType) :
    createOrUpdateVote s req now =
      ({ s with votes := deleteVoteById s.votes ev.id },
        VoteResp.voteRemoved req.proposalId req.userId) := by
  rcases hv with hv | hv <;>
    simp [createOrUpdateVote, hp, hu, hv, huser, hprop, hfv, hsame]

/-- Update branch with plain parameters (`isPetition = false`, no details). -/
theorem createOrUpdateVote_update_noPet (s : Store) (p u v : String) (now : Nat)
    (ev : VoteRow) (hp : p ≠ "") (hu : u ≠ "")
    (hv : v = "upvote" ∨ v = "downvote")
    (huser : s.users.any (fun x => x.id == u) = true)
    (hprop : s.proposals.any (fun x => x.id == p) = true)
    (hfv : findVote s.votes p u = some ev)
    (hdiff : ev.vote_type ≠ v) :
    createOrUpdateVote s ⟨p, u, v, false, none⟩ now =
      ({ s with votes := updateVoteById s.votes ev.id v now false },
        VoteResp.voteOk p u v false false) := by
  rcases hv with rfl | rfl <;>
    simp [createOrUpdateVote, hp, hu, huser, hprop, hfv, hdiff, afterVoteMutation]

/-- Insert branch with plain parameters (`isPetition = false`, no details). -/
theorem createOrUpdateVote_insert_noPet (s : Store) (p u v : String) (now : Nat)
    (hp : p ≠ "") (hu : u ≠ "")
    (hv : v = "upvote" ∨ v = "downvote")
    (huser : s.users.any (fun x => x.id == u) = true)
    (hprop : s.proposals.any (fun x => x.id == p) = true)
    (hfv : findVote s.votes p u = none) :
    createOrUpdateVote s ⟨p, u, v, false, none⟩ now =
      (insertVote s p u v now false, VoteResp.voteOk p u v false false) := by
  rcases hv with rfl | rfl <;>
    simp [createOrUpdateVote, hp, hu, huser, hprop, hfv, afterVoteMutation]

/-! ## C1: casting the same voteType twice in succession -/

/-- C1 (amended): from any store satisfying the per-pair uniqueness invariant
in which the `(proposal, user)` pair has **no existing vote of the requested
voteType**, two successive identical `createOrUpdateVote` calls (arbitrary
petition parameters) leave no vote row for the pair, and the second call's
response carries `voteType: null`.  (Starting from a state that already holds
a same-type vote, the first call toggles it off and the second re-creates it —
the counterexample.) -/
theorem double_same_vote_cancels (s : Store) (p u v : String) (pet1 pet2 : Bool)
    (d1 d2 : Option PetitionDetails) (now1 now2 : Nat)
    (hp : p ≠ "") (hu : u ≠ "")
    (hv : v = "upvote" ∨ v = "downvote")
    (huser : s.users.any (fun x => x.id == u) = true)
    (hprop : s.proposals.any (fun x => x.id == p) = true)
    (hpw : PairwiseDistinctVotes s.votes)
    (hfresh : ∀ r ∈ s.votes, pairMatch p u r = true → r.vote_type ≠ v) :
    ((createOrUpdateVote (createOrUpdateVote s ⟨p, u, v, pet1, d1⟩ now1).1
        ⟨p, u, v, pet2, d2⟩ now2).1.votes.filter (pairMatch p u) = []) ∧
    (createOrUpdateVote (createOrUpdateVote s ⟨p, u, v, pet1, d1⟩ now1).1
        ⟨p, u, v, pet2, d2⟩ now2).2 = VoteResp.voteRemoved p u := by
  have hfvnone : ∀ (l : List VoteRow), (∀ r ∈ l, pairMatch p u r = false) →
      l.find? (pairMatch p u) = none := fun l h => List.find?_eq_none.mpr (fun x hx => by
        simp [h x hx])
  cases hfv : findVote s.votes p u with
  | none =>
      have hnom : ∀ r ∈ s.votes, ¬ pairMatch p u r = true :=
        List.find?_eq_none.mp (by simpa [findVote] using hfv)
      -- first call inserts the row
      have h1 : (createOrUpdateVote s ⟨p, u, v, pet1, d1⟩ now1).1.votes =
          s.votes ++ [⟨s.nextVoteId, p, u, v, now1, (v == "upvote" && pet1)⟩] ∧
          (createOrUpdateVote s ⟨p, u, v, pet1, d1⟩ now1).1.users = s.users ∧
          (createOrUpdateVote s ⟨p, u, v, pet1, d1⟩ now1).1.proposals = s.proposals := by
        have heq : createOrUpdateVote s ⟨p, u, v, pet1, d1⟩ now1 =
            afterVoteMutation (insertVote s p u v now1 (v == "upvote" && pet1))
              p u v pet1 d1 now1 := by
          rcases hv with hv | hv <;>
            simp [createOrUpdateVote, hp, hu, hv, huser, hprop, hfv]
        have hfr := afterVoteMutation_frame (insertVote s p u v now1 (v == "upvote" && pet1))
          p u v pet1 d1 now1
        rw [heq]
        exact ⟨hfr.1, hfr.2.1, hfr.2.2.1⟩
      -- the second call finds the fresh row and deletes it
      have hfind2 : findVote (createOrUpdateVote s ⟨p, u, v, pet1, d1⟩ now1).1.votes p u =
          some ⟨s.nextVoteId, p, u, v, now1, (v == "upvote" && pet1)⟩ := by
        rw [h1.1]
        unfold findVote
        rw [find?_append_none _ _ _ (by simpa [findVote] using hfv)]
        simp [List.find?, pairMatch]
      have h2 := createOrUpdateVote_toggle_eq (createOrUpdateVote s ⟨p, u, v, pet1, d1⟩ now1).1
        ⟨p, u, v, pet2, d2⟩ now2 ⟨s.nextVoteId, p, u, v, now1, (v == "upvote" && pet1)⟩
        hp hu hv (by rw [h1.2.1]; exact huser) (by rw [h1.2.2]; exact hprop) hfind2 rfl
      rw [h2]
      refine ⟨List.filter_eq_nil_iff.mpr ?_, rfl⟩
      intro a ha hpa
      simp only [deleteVoteById, List.mem_filter, h1.1, List.mem_append,
        List.mem_singleton] at ha
      rcases ha with ⟨hmem | hmem, hid⟩
      · exact hnom a hmem hpa
      · subst hmem
        simp at hid
  | some ev =>
      have hmem : ev ∈ s.votes := List.mem_of_find?_eq_some (by simpa [findVote] using hfv)
      have hpmev : pairMatch p u ev = true :=
        List.find?_some (p := pairMatch p u) (by simpa [findVote] using hfv)
      have hne : (ev.vote_type == v) = false := by
        simpa using hfresh ev hmem hpmev
      -- first call updates ev in place
      have h1 : (createOrUpdateVote s ⟨p, u, v, pet1, d1⟩ now1).1.votes =
          updateVoteById s.votes ev.id v now1 (v == "upvote" && pet1) ∧
          (createOrUpdateVote s ⟨p, u, v, pet1, d1⟩ now1).1.users = s.users ∧
          (createOrUpdateVote s ⟨p, u, v, pet1, d1⟩ now1).1.proposals = s.proposals := by
        have heq : createOrUpdateVote s ⟨p, u, v, pet1, d1⟩ now1 =
            afterVoteMutation
              { s with votes := updateVoteById s.votes ev.id v now1 (v == "upvote" && pet1) }
              p u v pet1 d1 now1 := by
          rcases hv with rfl | rfl <;>
            simp [createOrUpdateVote, hp, hu, huser, hprop, hfv, hne]
        have hfr := afterVoteMutation_frame
          { s with votes := updateVoteById s.votes ev.id v now1 (v == "upvote" && pet1) }
          p u v pet1 d1 now1
        rw [heq]
        exact ⟨hfr.1, hfr.2.1, hfr.2.2.1⟩
      have hfpres : ∀ a : VoteRow, pairMatch p u
          (if (a.id == ev.id) = true then
            { a with vote_type := v, timestamp := now1, is_petition := (v == "upvote" && pet1) }
          else a) = pairMatch p u a := by
        intro a
        by_cases hid : (a.id == ev.id) = true <;> simp [pairMatch, hid]
      have hfind2 : findVote (createOrUpdateVote s ⟨p, u, v, pet1, d1⟩ now1).1.votes p u =
          some { ev with vote_type := v, timestamp := now1, is_petition := (v == "upvote" && pet1) } := by
        rw [h1.1]
        unfold findVote updateVoteById
        rw [find?_map_pred _ _ hfpres]
        rw [show s.votes.find? (pairMatch p u) = some ev from by simpa [findVote] using hfv]
        simp
      have h2 := createOrUpdateVote_toggle_eq (createOrUpdateVote s ⟨p, u, v, pet1, d1⟩ now1).1
        ⟨p, u, v, pet2, d2⟩ now2
        { ev with vote_type := v, timestamp := now1, is_petition := (v == "upvote" && pet1) }
        hp hu hv (by rw [h1.2.1]; exact huser) (by rw [h1.2.2]; exact hprop) hfind2 rfl
      rw [h2]
      refine ⟨List.filter_eq_nil_iff.mpr ?_, rfl⟩
      intro a ha hpa
      simp only [deleteVoteById, List.mem_filter, h1.1, updateVoteById, List.mem_map] at ha
      rcases ha with ⟨⟨a0, ha0, hfa0⟩, hid⟩
      have hpa0 : pairMatch p u a0 = true := by
        rw [← hfa0] at hpa
        rwa [hfpres a0] at hpa
      have ha0ev : a0 = ev := mem_pair_eq s.votes p u hpw a0 ev hmem hpmev ha0 hpa0
      subst ha0ev
      rw [← hfa0] at hid
      simp at hid

/-- Witness for C1: on the fresh store, upvoting twice leaves no vote row
and the second response is `voteType: null`. -/
theorem double_same_vote_cancels_witness :
    ((createOrUpdateVote (createOrUpdateVote storeFresh ⟨"p1", "u1", "upvote", false, none⟩ 1).1
        ⟨"p1", "u1", "upvote", false, none⟩ 2).1.votes.filter (pairMatch "p1" "u1") = []) ∧
    (createOrUpdateVote (createOrUpdateVote storeFresh ⟨"p1", "u1", "upvote", false, none⟩ 1).1
        ⟨"p1", "u1", "upvote", false, none⟩ 2).2 = VoteResp.voteRemoved "p1" "u1" :=
  double_same_vote_cancels storeFresh "p1" "u1" "upvote" false false none none 1 2
    (by decide) (by decide) (Or.inl rfl) (by decide) (by decide)
    List.Pairwise.nil (by decide)

/-- Counterexample to C1 as stated ("starting from any state"): from the
invariant-satisfying store that already holds an upvote for the pair, the
first identical call toggles the vote off and the second re-creates it, so the
final store `does` have a vote row for the pair and the second response is not
`voteType: null`. -/
theorem double_same_vote_cancels_cex :
    PairwiseDistinctVotes storeOneUpvote.votes ∧
    ¬ (((createOrUpdateVote (createOrUpdateVote storeOneUpvote ⟨"p1", "u1", "upvote", false, none⟩ 1).1
        ⟨"p1", "u1", "upvote", false, none⟩ 2).1.votes.filter (pairMatch "p1" "u1") = []) ∧
      (createOrUpdateVote (createOrUpdateVote storeOneUpvote ⟨"p1", "u1", "upvote", false, none⟩ 1).1
        ⟨"p1", "u1", "upvote", false, none⟩ 2).2 = VoteResp.voteRemoved "p1" "u1") :=
  ⟨List.pairwise_singleton _ _, by decide⟩

/-! ## C2: upvote then downvote -/

theorem pairMatch_updateFun (p u : String) (vid : Nat) (vt : String) (ts : Nat) (pet : Bool) :
    ∀ a : VoteRow, pairMatch p u (if (a.id == vid) = true then
      { a with vote_type := vt, timestamp := ts, is_petition := pet } else a) =
      pairMatch p u a := by
  intro a
  by_cases hid : (a.id == vid) = true <;> simp [pairMatch, hid]

/-- C2 (amended): provided the pair holds no existing vote of the **first**
call's voteType, casting `t1` then `t2` (opposite types, plain parameters)
leaves exactly one vote row for the pair, carrying the second call's voteType
and timestamp, and that row was updated in place by the second call: its id is
the id of a row already present for the pair before the second call.  The
second call's response is the vote-ok shape (the `updated` outcome).  (If the
pair already holds a `t1` vote, the first call deletes it and the second
call *creates* a fresh row instead — the counterexample.) -/
theorem up_then_down_updates_in_place (s : Store) (p u t1 t2 : String) (now1 now2 : Nat)
    (hp : p ≠ "") (hu : u ≠ "")
    (ht : (t1 = "upvote" ∧ t2 = "downvote") ∨ (t1 = "downvote" ∧ t2 = "upvote"))
    (huser : s.users.any (fun x => x.id == u) = true)
    (hprop : s.proposals.any (fun x => x.id == p) = true)
    (hpw : PairwiseDistinctVotes s.votes)
    (hfresh : ∀ r ∈ s.votes, pairMatch p u r = true → r.vote_type ≠ t1) :
    (∃ rid, ((createOrUpdateVote (createOrUpdateVote s ⟨p, u, t1, false, none⟩ now1).1
          ⟨p, u, t2, false, none⟩ now2).1.votes.filter (pairMatch p u)) =
        [⟨rid, p, u, t2, now2, false⟩] ∧
      ∃ r ∈ (createOrUpdateVote s ⟨p, u, t1, false, none⟩ now1).1.votes,
        pairMatch p u r = true ∧ r.id = rid) ∧
    (createOrUpdateVote (createOrUpdateVote s ⟨p, u, t1, false, none⟩ now1).1
        ⟨p, u, t2, false, none⟩ now2).2 = VoteResp.voteOk p u t2 false false := by
  have hv1 : t1 = "upvote" ∨ t1 = "downvote" := by
    rcases ht with ⟨h, _⟩ | ⟨h, _⟩
    · exact Or.inl h
    · exact Or.inr h
  have hv2 : t2 = "upvote" ∨ t2 = "downvote" := by
    rcases ht with ⟨_, h⟩ | ⟨_, h⟩
    · exact Or.inr h
    · exact Or.inl h
  have hne12 : t1 ≠ t2 := by
    rcases ht with ⟨h1, h2⟩ | ⟨h1, h2⟩ <;> simp [h1, h2]
  cases hfv : findVote s.votes p u with
  | none =>
      have h1 := createOrUpdateVote_insert_noPet s p u t1 now1 hp hu hv1 huser hprop hfv
      have hfind2 : findVote (insertVote s p u t1 now1 false).votes p u =
          some ⟨s.nextVoteId, p, u, t1, now1, false⟩ := by
        unfold findVote insertVote
        rw [find?_append_none _ _ _ (by simpa [findVote] using hfv)]
        simp [List.find?, pairMatch]
      have h2 := createOrUpdateVote_update_noPet (insertVote s p u t1 now1 false) p u t2 now2
        ⟨s.nextVoteId, p, u, t1, now1, false⟩ hp hu hv2
        (by simpa [insertVote] using huser) (by simpa [insertVote] using hprop) hfind2 hne12
      rw [h1, h2]
      refine ⟨⟨s.nextVoteId, ?_, ⟨s.nextVoteId, p, u, t1, now1, false⟩, ?_, ?_, rfl⟩, rfl⟩
      · show (updateVoteById (insertVote s p u t1 now1 false).votes s.nextVoteId t2 now2
            false).filter (pairMatch p u) = _
        unfold updateVoteById insertVote
        rw [filter_map_pred _ _ (pairMatch_updateFun p u s.nextVoteId t2 now2 false)]
        rw [List.filter_append]
        rw [List.filter_eq_nil_iff.mpr (fun a ha hpa =>
          (List.find?_eq_none.mp (by simpa [findVote] using hfv) a ha) hpa)]
        simp [pairMatch]
      · simp [insertVote]
      · simp [pairMatch]
  | some ev =>
      have hmem : ev ∈ s.votes := List.mem_of_find?_eq_some (by simpa [findVote] using hfv)
      have hpmev : pairMatch p u ev = true :=
        List.find?_some (p := pairMatch p u) (by simpa [findVote] using hfv)
      obtain ⟨hpp, huu⟩ : ev.proposal_id = p ∧ ev.user_id = u := by
        simpa [pairMatch] using hpmev
      have hne1 : ev.vote_type ≠ t1 := hfresh ev hmem hpmev
      have h1 := createOrUpdateVote_update_noPet s p u t1 now1 ev hp hu hv1 huser hprop hfv hne1
      have hfind2 : findVote (updateVoteById s.votes ev.id t1 now1 false) p u =
          some { ev with vote_type := t1, timestamp := now1, is_petition := false } := by
        unfold findVote updateVoteById
        rw [find?_map_pred _ _ (pairMatch_updateFun p u ev.id t1 now1 false)]
        rw [show s.votes.find? (pairMatch p u) = some ev from by simpa [findVote] using hfv]
        simp
      have h2 := createOrUpdateVote_update_noPet
        { s with votes := updateVoteById s.votes ev.id t1 now1 false } p u t2 now2
        { ev with vote_type := t1, timestamp := now1, is_petition := false }
        hp hu hv2 huser hprop hfind2 hne12
      rw [h1, h2]
      refine ⟨⟨ev.id, ?_, { ev with vote_type := t1, timestamp := now1, is_petition := false },
        ?_, ?_, rfl⟩, rfl⟩
      · show (updateVoteById (updateVoteById s.votes ev.id t1 now1 false) ev.id t2 now2
            false).filter (pairMatch p u) = _
        unfold updateVoteById
        rw [filter_map_pred _ _ (pairMatch_updateFun p u ev.id t2 now2 false)]
        rw [filter_map_pred _ _ (pairMatch_updateFun p u ev.id t1 now1 false)]
        rw [filter_eq_single_of_key voteKey (pairMatch p u) (pairMatch_key p u)
          s.votes hpw ev hmem hpmev]
        simp [hpp, huu]
      · exact List.mem_map.mpr ⟨ev, hmem, by simp⟩
      · simpa [pairMatch] using hpmev

/-- Witness for C2: on the fresh store, upvote then downvote leaves the single
row updated in place to `downvote`. -/
theorem up_then_down_updates_in_place_witness :
    (∃ rid, ((createOrUpdateVote (createOrUpdateVote storeFresh ⟨"p1", "u1", "upvote", false, none⟩ 1).1
          ⟨"p1", "u1", "downvote", false, none⟩ 2).1.votes.filter (pairMatch "p1" "u1")) =
        [⟨rid, "p1", "u1", "downvote", 2, false⟩] ∧
      ∃ r ∈ (createOrUpdateVote storeFresh ⟨"p1", "u1", "upvote", false, none⟩ 1).1.votes,
        pairMatch "p1" "u1" r = true ∧ r.id = rid) ∧
    (createOrUpdateVote (createOrUpdateVote storeFresh ⟨"p1", "u1", "upvote", false, none⟩ 1).1
        ⟨"p1", "u1", "downvote", false, none⟩ 2).2 = VoteResp.voteOk "p1" "u1" "downvote" false false :=
  up_then_down_updates_in_place storeFresh "p1" "u1" "upvote" "downvote" 1 2
    (by decide) (by decide) (Or.inl ⟨rfl, rfl⟩) (by decide) (by decide)
    List.Pairwise.nil (by decide)

/-- Counterexample to C2 as stated: from the store already holding an upvote
for the pair, upvote-then-downvote first deletes the row (toggle-off) and then
*creates* a fresh one — the final single downvote row has a fresh id and no
row for the pair existed before the second call, so nothing was "updated in
place" and the second call's outcome is `created`, not `updated`. -/
theorem up_then_down_updates_in_place_cex :
    PairwiseDistinctVotes storeOneUpvote.votes ∧
    ¬ (∃ rid, ((createOrUpdateVote (createOrUpdateVote storeOneUpvote ⟨"p1", "u1", "upvote", false, none⟩ 1).1
          ⟨"p1", "u1", "downvote", false, none⟩ 2).1.votes.filter (pairMatch "p1" "u1")) =
        [⟨rid, "p1", "u1", "downvote", 2, false⟩] ∧
      ∃ r ∈ (createOrUpdateVote storeOneUpvote ⟨"p1", "u1", "upvote", false, none⟩ 1).1.votes,
        pairMatch "p1" "u1" r = true ∧ r.id = rid) := by
  refine ⟨List.pairwise_singleton _ _, ?_⟩
  rintro ⟨rid, -, r, hr, -⟩
  have hempty : (createOrUpdateVote storeOneUpvote ⟨"p1", "u1", "upvote", false, none⟩ 1).1.votes = [] := by
    decide
  rw [hempty] at hr
  exact List.not_mem_nil r hr

/-! ## C5: ordering of `getProposals?sortBy=popular` -/

theorem mem_insertB {α : Type} (le : α → α → Bool) (x : α) (l : List α) :
    ∀ a ∈ insertB le x l, a = x ∨ a ∈ l := by
  induction l with
  | nil =>
      intro a ha
      simp only [insertB, List.mem_singleton] at ha
      exact Or.inl ha
  | cons y ys ih =>
      intro a ha
      by_cases hxy : le x y = true
      · simp only [insertB, if_pos hxy] at ha
        rcases List.mem_cons.mp ha with rfl | h
        · exact Or.inl rfl
        · exact Or.inr h
      · simp only [insertB, if_neg hxy] at ha
        rcases List.mem_cons.mp ha with rfl | h
        · exact Or.inr (List.mem_cons_self _ _)
        · rcases ih a h with rfl | h'
          · exact Or.inl rfl
          · exact Or.inr (List.mem_cons_of_mem _ h')

theorem pairwise_insertB {α : Type} (le : α → α → Bool)
    (htr : ∀ a b c, le a b = true → le b c = true → le a c = true)
    (htot : ∀ a b, le a b = true ∨ le b a = true)
    (x : α) (l : List α) (h : l.Pairwise (fun a b => le a b = true)) :
    (insertB le x l).Pairwise (fun a b => le a b = true) := by
  induction l with
  | nil => simp [insertB]
  | cons y ys ih =>
      obtain ⟨hy, hys⟩ := List.pairwise_cons.mp h
      by_cases hxy : le x y = true
      · simp only [insertB, if_pos hxy]
        refine List.pairwise_cons.mpr ⟨?_, h⟩
        intro b hb
        rcases List.mem_cons.mp hb with rfl | hb'
        · exact hxy
        · exact htr x y b hxy (hy b hb')
      · simp only [insertB, if_neg hxy]
        refine List.pairwise_cons.mpr ⟨?_, ih hys⟩
        intro b hb
        rcases mem_insertB le x ys b hb with rfl | hb'
        · rcases htot b y with h' | h'
          · exact absurd h' hxy
          · exact h'
        · exact hy b hb'

theorem pairwise_sortB {α : Type} (le : α → α → Bool)
    (htr : ∀ a b c, le a b = true → le b c = true → le a c = true)
    (htot : ∀ a b, le a b = true ∨ le b a = true) (l : List α) :
    (sortB le l).Pairwise (fun a b => le a b = true) := by
  induction l with
  | nil => simp [sortB]
  | cons x xs ih =>
      simp only [sortB]
      exact pairwise_insertB le htr htot x _ ih

theorem popularLeWorker_iff (a b : ProposalAgg) :
    popularLeWorker a b = true ↔
      (b.upvotes < a.upvotes ∨ (a.upvotes = b.upvotes ∧ b.timestamp ≤ a.timestamp)) := by
  simp [popularLeWorker]

theorem popularLeWorker_total (a b : ProposalAgg) :
    popularLeWorker a b = true ∨ popularLeWorker b a = true := by
  rw [popularLeWorker_iff, popularLeWorker_iff]
  omega

theorem popularLeWorker_trans (a b c : ProposalAgg)
    (h1 : popularLeWorker a b = true) (h2 : popularLeWorker b c = true) :
    popularLeWorker a c = true := by
  rw [popularLeWorker_iff] at h1 h2 ⊢
  omega

theorem popularLeAlt_iff (a b : ProposalAgg) :
    popularLeAlt a b = true ↔ netVotesOf b ≤ netVotesOf a := by
  simp [popularLeAlt]

theorem popularLeAlt_total (a b : ProposalAgg) :
    popularLeAlt a b = true ∨ popularLeAlt b a = true := by
  rw [popularLeAlt_iff, popularLeAlt_iff]
  omega

theorem popularLeAlt_trans (a b c : ProposalAgg)
    (h1 : popularLeAlt a b = true) (h2 : popularLeAlt b c = true) :
    popularLeAlt a c = true := by
  rw [popularLeAlt_iff] at h1 h2 ⊢
  omega

/-- C5 (amended): the two coexisting `getProposals` implementations order
`popular` differently.  The worker.js one returns rows ordered by `upvotes`
descending with ties by `timestamp` descending (not by net votes); the
part_000 one returns rows ordered by `upvotes − downvotes` descending, as the
claim states. -/
theorem getProposals_popular_order (s : Store) (page limit : Nat) :
    (getProposalsWorker s "popular" page limit).Pairwise
      (fun a b => popularLeWorker a b = true) ∧
    (getProposalsAlt s "popular").Pairwise (fun a b => popularLeAlt a b = true) := by
  constructor
  · have hw : workerOrder "popular" = popularLeWorker := rfl
    have hs : (sortB (workerOrder "popular") (proposalAggRows s)).Pairwise
        (fun a b => popularLeWorker a b = true) := by
      rw [hw]
      exact pairwise_sortB _ popularLeWorker_trans popularLeWorker_total _
    simp only [getProposalsWorker]
    exact List.Pairwise.sublist ((List.take_sublist _ _).trans (List.drop_sublist _ _)) hs
  · have ha : getProposalsAlt s "popular" = sortB popularLeAlt (proposalAggRows s) := rfl
    rw [ha]
    exact pairwise_sortB _ popularLeAlt_trans popularLeAlt_total _

/-- Counterexample to C5 as stated for the worker.js implementation: with one
proposal at 1 upvote / 5 downvotes (net −4) and another at 0/0 (net 0),
`sortBy=popular` returns the first one first (more upvotes), which is not
`(upvotes − downvotes)` descending. -/
theorem getProposalsWorker_popular_not_net_ordered :
    ¬ (getProposalsWorker storeTwoProposals "popular" 1 20).Pairwise
        (fun a b => popularLeAlt a b = true) := by
  decide

end Radical
